import Mathlib

/-!
# Media instance (playback session) of `src/control/media_instance.c`

A shallow embedding of the media-instance handle layer: the state translator,
the notification callbacks, reference counting with destructive release, and
the play / pause / stop control operations over an engine resource (input
thread) that is looked up by object id.

The session code runs against three collaborators whose code is not part of
the file: the engine object registry (`vlc_object_*`, `input_*`, `var_*`), the
event manager and the media descriptor.  They are modelled as a registry of
objects plus a chronological trace of every call the session issues.  The
object lock is not embedded: every operation is modelled as running to
completion on its own, one after the other.
-/

namespace Vlc

/-! ## Engine-side declarations -/

/-- Modelled from the spec: the engine-internal state codes of `vlc_input.h`
(Init, Opening, Buffering, Playing, Paused, Ended, Error), the closed set
`0 .. 6` that indexes `vlc_to_libvlc_state_array`. -/
def INIT_S : Int := 0
/-- Modelled from the spec: engine state code Opening of `vlc_input.h`. -/
def OPENING_S : Int := 1
/-- Modelled from the spec: engine state code Buffering of `vlc_input.h`. -/
def BUFFERING_S : Int := 2
/-- Modelled from the spec: engine state code Playing of `vlc_input.h`. -/
def PLAYING_S : Int := 3
/-- Modelled from the spec: engine state code Paused of `vlc_input.h`. -/
def PAUSE_S : Int := 4
/-- Modelled from the spec: engine state code Ended of `vlc_input.h`. -/
def END_S : Int := 5
/-- Modelled from the spec: engine state code Error of `vlc_input.h`. -/
def ERROR_S : Int := 6

/-- Modelled from the spec: the public state enumeration `libvlc_state_t` of
`vlc/libvlc.h`, with the descriptor-only value "nothing special". -/
inductive libvlc_state_t where
  | libvlc_NothingSpecial
  | libvlc_Stopped
  | libvlc_Opening
  | libvlc_Buffering
  | libvlc_Ended
  | libvlc_Error
  | libvlc_Playing
  | libvlc_Paused
deriving DecidableEq, Repr

open libvlc_state_t

/-- Modelled from the spec: the union `vlc_value_t` of the engine, seen through
the four members the session code reads and writes.  A float is the rational
number it stands for. -/
structure vlc_value_t where
  i_int : Int := 0
  b_bool : Bool := false
  f_float : Rat := 0
  i_time : Int := 0
deriving DecidableEq, Repr

/-- The three callbacks the session registers on an input thread. -/
inductive Callback where
  | input_state_changed
  | input_position_changed
  | input_time_changed
deriving DecidableEq, Repr

/-- Modelled from the spec: the engine resource `input_thread_t`, reduced to
what the session code touches: the object reference count, the die / dead
flags, the content item it plays, its variables by name (absent when the
variable does not exist) and the callbacks registered on them. -/
structure input_thread_t where
  i_refcount : Int
  b_die : Bool
  b_dead : Bool
  p_input_item : Nat
  vars : String → Option vlc_value_t
  callbacks : List (String × Callback)

/-- Modelled from the spec: the content descriptor `libvlc_media_descriptor_t`,
with its cached state, the content item it describes and the top-level
instance that owns it. -/
structure libvlc_media_descriptor_t where
  state : libvlc_state_t
  p_input_item : Nat
  p_libvlc_instance : Nat
deriving DecidableEq, Repr

/-- The kinds of public event of the media instance (`libvlc_event_type_t`). -/
inductive libvlc_event_type_t where
  | libvlc_MediaInstanceReachedEnd
  | libvlc_MediaInstancePaused
  | libvlc_MediaInstancePlayed
  | libvlc_MediaInstancePositionChanged
  | libvlc_MediaInstanceTimeChanged
deriving DecidableEq, Repr

open libvlc_event_type_t

/-- A public event `libvlc_event_t`: its kind and the members of the payload
union the callbacks fill in (`none` for a member left unset). -/
structure libvlc_event_t where
  type : libvlc_event_type_t
  new_position : Option Rat := none
  new_time : Option Int := none
deriving DecidableEq, Repr

/-- The session object `libvlc_media_instance_t` (declared in
`libvlc_internal.h`), field by field; `i_input_id = -1` means no input thread,
a null `p_md` is `none`.  The reference count is a C `int`: it holds the values
of the 32-bit signed range, and `retain` and `release` wrap around it. -/
structure libvlc_media_instance_t where
  i_refcount : Int
  i_input_id : Int
  b_own_its_input_thread : Bool
  p_md : Option libvlc_media_descriptor_t
  drawable : Int
  p_event_manager : Nat
  p_libvlc_instance : Nat
deriving DecidableEq, Repr

/-- The exception object `libvlc_exception_t`: `none` when nothing is raised,
`some msg` when an exception with that message is raised. -/
abbrev libvlc_exception_t := Option String

/-- Every call the session code issues to a collaborator, in the order of the
source; `p` is the engine object the call is made on. -/
inductive Action where
  | vlc_object_get (p : Nat)
  | vlc_object_yield (p : Nat)
  | vlc_object_release (p : Nat)
  | input_CreateThread (p_input_item : Nat) (p : Nat)
  | input_Control_SET_STATE (p : Nat) (state : Int)
  | input_StopThread (p : Nat)
  | input_DestroyThread (p : Nat)
  | var_Create (p : Nat) (name : String)
  | var_Destroy (p : Nat) (name : String)
  | var_Set (p : Nat) (name : String) (val : vlc_value_t)
  | var_AddCallback (p : Nat) (name : String) (cb : Callback)
  | libvlc_event_manager_register_event_type (p_event_manager : Nat)
      (type : libvlc_event_type_t)
  | libvlc_event_send (p_event_manager : Nat) (event : libvlc_event_t)
  | libvlc_event_manager_release (p_event_manager : Nat)
  | libvlc_media_descriptor_retain (p_md : libvlc_media_descriptor_t)
  | libvlc_media_descriptor_release (p_md : Option libvlc_media_descriptor_t)
  | vlc_mutex_destroy
  | free
deriving DecidableEq, Repr

/-- The state an operation runs in: the session `*p_mi`, the engine object
registry (object id to object), the engine counter for fresh object ids, the
caller-supplied exception `*p_e`, and the trace of collaborator calls. -/
structure World where
  mi : libvlc_media_instance_t
  objects : Nat → Option input_thread_t
  i_counter : Nat
  p_e : libvlc_exception_t
  trace : List Action

/-- Append one collaborator call to the trace. -/
def World.emit (w : World) (a : Action) : World :=
  { w with trace := w.trace ++ [a] }

/-- Apply `f` to the registered object `p`, if it is still registered. -/
def World.onObject (w : World) (p : Nat) (f : input_thread_t → input_thread_t) : World :=
  { w with objects := fun q => if q = p then (w.objects q).map f else w.objects q }

/-- Modelled from the spec: `vlc_object_get`, acquire by id: not-found for an
id that names no registered object, else the object with one more reference. -/
def vlc_object_get (w : World) (i_id : Int) : Option Nat × World :=
  if i_id < 0 then (none, w)
  else
    match w.objects i_id.toNat with
    | none => (none, w)
    | some _ =>
      (some i_id.toNat,
        (w.onObject i_id.toNat
          (fun o => { o with i_refcount := o.i_refcount + 1 })).emit
          (Action.vlc_object_get i_id.toNat))

/-- Modelled from the spec: `vlc_object_yield`, one more reference on `p`. -/
def vlc_object_yield (w : World) (p : Nat) : World :=
  (w.onObject p (fun o => { o with i_refcount := o.i_refcount + 1 })).emit
    (Action.vlc_object_yield p)

/-- Modelled from the spec: `vlc_object_release`, one reference less on `p`. -/
def vlc_object_release (w : World) (p : Nat) : World :=
  (w.onObject p (fun o => { o with i_refcount := o.i_refcount - 1 })).emit
    (Action.vlc_object_release p)

/-- Modelled from the spec: the engine resource factory `input_CreateThread`:
a new object under a fresh id, in state Init, with no reference taken, its
variables `state`, `seekable`, `can-pause`, `position`, `time`, `length`,
`rate` and `chapter` existing and `drawable` not. -/
def input_CreateThread (w : World) (p_input_item : Nat) : Nat × World :=
  (w.i_counter,
    { w with
      objects := fun q =>
        if q = w.i_counter then
          some { i_refcount := 0, b_die := false, b_dead := false,
                 p_input_item := p_input_item,
                 vars := fun name =>
                   if name = "state" then some { i_int := INIT_S }
                   else if name = "rate" then some { i_int := 1000 }
                   else if name = "seekable" ∨ name = "can-pause" ∨ name = "position"
                     ∨ name = "time" ∨ name = "length" ∨ name = "chapter" then some {}
                   else none,
                 callbacks := [] }
        else w.objects q,
      i_counter := w.i_counter + 1,
      trace := w.trace ++ [Action.input_CreateThread p_input_item w.i_counter] })

/-- Modelled from the spec: `input_Control (p, INPUT_SET_STATE, state)`, the
set-state command; the engine acts on it on its own thread, so only the call
is recorded. -/
def input_Control_SET_STATE (w : World) (p : Nat) (state : Int) : World :=
  w.emit (Action.input_Control_SET_STATE p state)

/-- Modelled from the spec: `input_StopThread`, the request to halt `p`. -/
def input_StopThread (w : World) (p : Nat) : World :=
  (w.onObject p (fun o => { o with b_die := true })).emit (Action.input_StopThread p)

/-- Modelled from the spec: `input_DestroyThread`, the destruction of `p`:
the object leaves the registry. -/
def input_DestroyThread (w : World) (p : Nat) : World :=
  { w with
    objects := fun q => if q = p then none else w.objects q,
    trace := w.trace ++ [Action.input_DestroyThread p] }

/-- Modelled from the spec: `var_Get`, the value of variable `name` of `p`
(the zero value when the object or the variable does not exist). -/
def var_Get (w : World) (p : Nat) (name : String) : vlc_value_t :=
  match w.objects p with
  | none => {}
  | some o => (o.vars name).getD {}

/-- Modelled from the spec: `var_GetInteger`, the `i_int` member of `var_Get`. -/
def var_GetInteger (w : World) (p : Nat) (name : String) : Int :=
  (var_Get w p name).i_int

/-- Modelled from the spec: `var_GetBool` on an integer variable.  The member
`b_bool` is a `vlc_bool_t`, an `int` that shares its bytes with `i_int` in the
union, so the read of an integer variable (the only use in the source is on
`state`) returns the integer stored in it. -/
def var_GetBool (w : World) (p : Nat) (name : String) : Int :=
  (var_Get w p name).i_int

/-- Modelled from the spec: `var_Set`, the property write of `val` to variable
`name` of `p`. -/
def var_Set (w : World) (p : Nat) (name : String) (val : vlc_value_t) : World :=
  (w.onObject p (fun o =>
    { o with vars := fun n => if n = name then some val else o.vars n })).emit
    (Action.var_Set p name val)

/-- Modelled from the spec: `var_Create`, which brings variable `name` of `p`
into existence (keeping its value when it already exists). -/
def var_Create (w : World) (p : Nat) (name : String) : World :=
  (w.onObject p (fun o =>
    { o with vars := fun n =>
        if n = name then some ((o.vars n).getD {}) else o.vars n })).emit
    (Action.var_Create p name)

/-- Modelled from the spec: `var_Destroy`, which removes variable `name`. -/
def var_Destroy (w : World) (p : Nat) (name : String) : World :=
  (w.onObject p (fun o =>
    { o with vars := fun n => if n = name then none else o.vars n })).emit
    (Action.var_Destroy p name)

/-- Modelled from the spec: `var_AddCallback`, the property-change
subscription of callback `cb` on variable `name` of `p`. -/
def var_AddCallback (w : World) (p : Nat) (name : String) (cb : Callback) : World :=
  (w.onObject p (fun o => { o with callbacks := o.callbacks ++ [(name, cb)] })).emit
    (Action.var_AddCallback p name cb)

/-- Modelled from the spec: `libvlc_event_send`, publish on the event bus. -/
def libvlc_event_send (w : World) (event : libvlc_event_t) : World :=
  w.emit (Action.libvlc_event_send w.mi.p_event_manager event)

/-- Modelled from the spec: `libvlc_event_manager_release`, destroy the bus. -/
def libvlc_event_manager_release (w : World) : World :=
  w.emit (Action.libvlc_event_manager_release w.mi.p_event_manager)

/-- Modelled from the spec: `libvlc_media_descriptor_release` on `p_mi->p_md`. -/
def libvlc_media_descriptor_release (w : World) : World :=
  w.emit (Action.libvlc_media_descriptor_release w.mi.p_md)

/-- Modelled from the spec: `libvlc_media_descriptor_set_state` on
`p_mi->p_md`: the descriptor's cached state becomes `state`. -/
def libvlc_media_descriptor_set_state (w : World) (state : libvlc_state_t) : World :=
  { w with mi := { w.mi with p_md := w.mi.p_md.map (fun md => { md with state := state }) } }

/-- Modelled from the spec: `libvlc_exception_raise`. -/
def libvlc_exception_raise (w : World) (msg : String) : World :=
  { w with p_e := some msg }

/-- Modelled from the spec: `libvlc_exception_clear`. -/
def libvlc_exception_clear (w : World) : World :=
  { w with p_e := none }

/-- Modelled from the spec: `libvlc_exception_raised`. -/
def libvlc_exception_raised (w : World) : Bool :=
  w.p_e.isSome

/-! ## The source, function by function -/

/-- The table `vlc_to_libvlc_state_array`, indexed by the engine state code. -/
def vlc_to_libvlc_state_array : List libvlc_state_t :=
  [libvlc_Opening, libvlc_Opening, libvlc_Buffering, libvlc_Playing,
   libvlc_Paused, libvlc_Ended, libvlc_Error]

/-- The state translator `vlc_to_libvlc_state`. -/
def vlc_to_libvlc_state (vlc_state : Int) : libvlc_state_t :=
  if vlc_state < 0 ∨ vlc_state > 6 then libvlc_Stopped
  else vlc_to_libvlc_state_array.getD vlc_state.toNat libvlc_Stopped

/-- The function `release_input_thread`: detach the input thread of the
session, and destroy it when the session owns it. -/
def release_input_thread (w : World) : World :=
  if w.mi.i_input_id = -1 then w
  else
    match vlc_object_get w w.mi.i_input_id with
    | (p_input_thread, w1) =>
      let w2 : World := { w1 with mi := { w1.mi with i_input_id := -1 } }
      match p_input_thread with
      | none => w2
      | some p =>
        -- release for previous vlc_object_get
        let w3 := vlc_object_release w2 p
        -- release for initial p_input_thread yield (see _new())
        let w4 := vlc_object_release w3 p
        if w4.mi.b_own_its_input_thread then
          -- We owned this one
          input_DestroyThread (var_Destroy (input_StopThread w4 p) p "drawable") p
        else
          vlc_object_release w4 p

/-- The function `libvlc_get_input_thread`: the input thread of the session,
retained, or null with an exception raised. -/
def libvlc_get_input_thread (w : World) : Option Nat × World :=
  if w.mi.i_input_id = -1 then
    (none, libvlc_exception_raise w "Input is NULL")
  else
    match vlc_object_get w w.mi.i_input_id with
    | (none, w1) => (none, libvlc_exception_raise w1 "Input does not exist")
    | (some p, w1) => (some p, w1)

/-- The callback `input_state_changed` on input variable "state" (also
registered on "seekable" and "pausable").  It always returns `VLC_SUCCESS`;
the resulting world is what the embedding keeps.  For the other two commands
the event type is what `var_GetBool` reads from the state variable, the
current state code. -/
def input_state_changed (w : World) (p_this : Nat) (psz_cmd : String)
    (_oldval newval : vlc_value_t) : World :=
  let type : Int :=
    if psz_cmd ≠ "state" then var_GetBool w p_this "state"
    else newval.i_int
  if type = END_S then
    libvlc_event_send (libvlc_media_descriptor_set_state w libvlc_NothingSpecial)
      { type := libvlc_MediaInstanceReachedEnd }
  else if type = PAUSE_S then
    libvlc_event_send (libvlc_media_descriptor_set_state w libvlc_Playing)
      { type := libvlc_MediaInstancePaused }
  else if type = PLAYING_S then
    libvlc_event_send (libvlc_media_descriptor_set_state w libvlc_Playing)
      { type := libvlc_MediaInstancePlayed }
  else if type = ERROR_S then
    -- Because ERROR_S is buggy
    libvlc_event_send (libvlc_media_descriptor_set_state w libvlc_Error)
      { type := libvlc_MediaInstanceReachedEnd }
  else w

/-- The test `!strncmp (psz_cmd, "intf", 4)` of the two "intf-change"
callbacks: the first four characters of the command are `intf`. -/
def strncmp_intf_4 (psz_cmd : String) : Bool :=
  psz_cmd.data.take 4 = ['i', 'n', 't', 'f']

/-- The callback `input_position_changed` on input variable "intf-change".
In the `else` branch the source copies `newval.i_time` into `val` and reads
`val.f_float`, the same bytes of the union, that is `newval.f_float`. -/
def input_position_changed (w : World) (p_this : Nat) (psz_cmd : String)
    (_oldval newval : vlc_value_t) : World :=
  if strncmp_intf_4 psz_cmd then
    let val := var_Get w p_this "state"
    if val.i_int ≠ PLAYING_S then w -- Don't send the position while stopped
    else
      let val := var_Get w p_this "position"
      libvlc_event_send w
        { type := libvlc_MediaInstancePositionChanged, new_position := some val.f_float }
  else
    let val := newval
    libvlc_event_send w
      { type := libvlc_MediaInstancePositionChanged, new_position := some val.f_float }

/-- The callback `input_time_changed` on input variable "intf-change". -/
def input_time_changed (w : World) (p_this : Nat) (psz_cmd : String)
    (_oldval newval : vlc_value_t) : World :=
  if strncmp_intf_4 psz_cmd then
    let val := var_Get w p_this "state"
    if val.i_int ≠ PLAYING_S then w -- Don't send the position while stopped
    else
      let val := var_Get w p_this "time"
      libvlc_event_send w
        { type := libvlc_MediaInstanceTimeChanged, new_time := some val.i_time }
  else
    let val := newval
    libvlc_event_send w
      { type := libvlc_MediaInstanceTimeChanged, new_time := some val.i_time }

/-- The constructor `libvlc_media_instance_new`.  `p_event_manager` is what
`libvlc_event_manager_new` returns (`none` when it raises); the result is the
new session, or null. -/
def libvlc_media_instance_new (w : World) (p_libvlc_instance : Option Nat)
    (p_event_manager : Option Nat) : Option libvlc_media_instance_t × World :=
  match p_libvlc_instance with
  | none => (none, libvlc_exception_raise w "invalid libvlc instance")
  | some inst =>
    let w1 :=
      match p_event_manager with
      | none => libvlc_exception_raise w "No memory"
      | some _ => w
    if libvlc_exception_raised w1 then (none, w1.emit Action.free)
    else
      let em := p_event_manager.getD 0
      let p_mi : libvlc_media_instance_t :=
        { p_md := none, drawable := 0, p_libvlc_instance := inst, i_input_id := -1,
          i_refcount := 1, b_own_its_input_thread := true, p_event_manager := em }
      (some p_mi,
        ((((w1.emit (Action.libvlc_event_manager_register_event_type em
              libvlc_MediaInstanceReachedEnd)).emit
            (Action.libvlc_event_manager_register_event_type em
              libvlc_MediaInstancePaused)).emit
            (Action.libvlc_event_manager_register_event_type em
              libvlc_MediaInstancePlayed)).emit
            (Action.libvlc_event_manager_register_event_type em
              libvlc_MediaInstancePositionChanged)).emit
            (Action.libvlc_event_manager_register_event_type em
              libvlc_MediaInstanceTimeChanged))

/-- The constructor `libvlc_media_instance_new_from_media_descriptor`. -/
def libvlc_media_instance_new_from_media_descriptor (w : World)
    (p_md : libvlc_media_descriptor_t) (p_event_manager : Option Nat) :
    Option libvlc_media_instance_t × World :=
  match libvlc_media_instance_new w (some p_md.p_libvlc_instance) p_event_manager with
  | (none, w1) => (none, w1)
  | (some p_mi, w1) =>
    (some { p_mi with p_md := some p_md },
      w1.emit (Action.libvlc_media_descriptor_retain p_md))

/-- The value a 32-bit signed `int` (the type of `i_refcount`) keeps of the
integer `x`: `x` modulo `2 ^ 32`, taken in the range from `-2 ^ 31` to
`2 ^ 31 - 1`. -/
def wrap_int32 (x : Int) : Int :=
  (x + 2 ^ 31) % 2 ^ 32 - 2 ^ 31

/-- The function `libvlc_media_instance_release`: one reference less, and the
teardown of the session when none is left. -/
def libvlc_media_instance_release (w : World) : World :=
  let w1 : World :=
    { w with mi := { w.mi with i_refcount := wrap_int32 (w.mi.i_refcount - 1) } }
  if w1.mi.i_refcount > 0 then w1
  else
    let w2 := w1.emit Action.vlc_mutex_destroy
    let w3 := release_input_thread w2
    let w4 := libvlc_event_manager_release w3
    let w5 := libvlc_media_descriptor_release w4
    w5.emit Action.free

/-- The function `libvlc_media_instance_retain`: one more reference. -/
def libvlc_media_instance_retain (w : World) : World :=
  { w with mi := { w.mi with i_refcount := wrap_int32 (w.mi.i_refcount + 1) } }

/-- The function `libvlc_media_instance_play`. -/
def libvlc_media_instance_play (w : World) : World :=
  match libvlc_get_input_thread w with
  | (some p, w1) =>
    -- A thread alread exists, send it a play message
    vlc_object_release (input_Control_SET_STATE w1 p PLAYING_S) p
  | (none, w1) =>
    -- Ignore previous exception
    let w2 := libvlc_exception_clear w1
    match w2.mi.p_md with
    | none => libvlc_exception_raise w2 "no associated media descriptor"
    | some md =>
      match input_CreateThread w2 md.p_input_item with
      | (p, w3) =>
        let w4 : World := { w3 with mi := { w3.mi with i_input_id := (p : Int) } }
        let w5 :=
          if w4.mi.drawable ≠ 0 then
            var_Set (var_Create w4 p "drawable") p "drawable" { i_int := w4.mi.drawable }
          else w4
        let w6 := var_AddCallback w5 p "state" Callback.input_state_changed
        let w7 := var_AddCallback w6 p "seekable" Callback.input_state_changed
        let w8 := var_AddCallback w7 p "pausable" Callback.input_state_changed
        let w9 := var_AddCallback w8 p "intf-change" Callback.input_position_changed
        let w10 := var_AddCallback w9 p "intf-change" Callback.input_time_changed
        -- will be released in media_instance_release()
        vlc_object_yield w10 p

/-- The function `libvlc_media_instance_stop`. -/
def libvlc_media_instance_stop (w : World) : World :=
  if w.mi.b_own_its_input_thread then
    release_input_thread w -- This will stop the input thread
  else
    match libvlc_get_input_thread w with
    | (none, w1) => w1
    | (some p, w1) => vlc_object_release (input_StopThread w1 p) p

/-- The query `libvlc_media_instance_can_pause`. -/
def libvlc_media_instance_can_pause (w : World) : Bool × World :=
  match libvlc_get_input_thread w with
  | (none, w1) =>
    -- We do return the right value, no need to throw an exception
    (false, if libvlc_exception_raised w1 then libvlc_exception_clear w1 else w1)
  | (some p, w1) =>
    let val := var_Get w1 p "can-pause"
    (val.b_bool, vlc_object_release w1 p)

/-- The query `libvlc_media_instance_is_seekable`. -/
def libvlc_media_instance_is_seekable (w : World) : Bool × World :=
  match libvlc_get_input_thread w with
  | (none, w1) =>
    -- We do return the right value, no need to throw an exception
    (false, if libvlc_exception_raised w1 then libvlc_exception_clear w1 else w1)
  | (some p, w1) =>
    let val := var_Get w1 p "seekable"
    (val.b_bool, vlc_object_release w1 p)

/-- The query `libvlc_media_instance_get_state`. -/
def libvlc_media_instance_get_state (w : World) : libvlc_state_t × World :=
  match libvlc_get_input_thread w with
  | (none, w1) =>
    -- We do return the right value, no need to throw an exception
    (libvlc_Stopped, if libvlc_exception_raised w1 then libvlc_exception_clear w1 else w1)
  | (some p, w1) =>
    let val := var_Get w1 p "state"
    (vlc_to_libvlc_state val.i_int, vlc_object_release w1 p)

/-- The function `libvlc_media_instance_pause`. -/
def libvlc_media_instance_pause (w : World) : World :=
  match libvlc_get_input_thread w with
  | (none, w1) => w1
  | (some p, w1) =>
    let state := var_GetInteger w1 p "state"
    let w2 :=
      if state = PLAYING_S then
        match libvlc_media_instance_can_pause w1 with
        | (true, w1a) => input_Control_SET_STATE w1a p PAUSE_S
        | (false, w1a) => libvlc_media_instance_stop w1a
      else
        input_Control_SET_STATE w1 p PLAYING_S
    vlc_object_release w2 p

/-- The exponent of a positive rational `x`: the integer `e` with
`2 ^ e ≤ x < 2 ^ (e + 1)`. -/
def ilog2 (x : Rat) : Int :=
  let e0 : Int := (Nat.log2 x.num.natAbs : Int) - (Nat.log2 x.den : Int)
  if (2 : Rat) ^ e0 ≤ x then e0 else e0 - 1

/-- The integer nearest to `q`, the even one of the two when `q` lies half way. -/
def round_half_even (q : Rat) : Int :=
  let f := ⌊q⌋
  let d := q - (f : Rat)
  if d < 1 / 2 then f
  else if 1 / 2 < d then f + 1
  else if f % 2 = 0 then f else f + 1

/-- The binary32 (C `float`) value nearest to the rational `x`, ties to even:
24 significant bits, the exponent not below -126 (subnormal numbers share the
spacing `2 ^ -149`).  A result of size `2 ^ 128` or more stands for an
overflow; `float_div` turns it into a non-finite result. -/
def round_binary32 (x : Rat) : Rat :=
  if x = 0 then 0
  else
    let e := max (ilog2 |x|) (-126)
    let ulp : Rat := (2 : Rat) ^ (e - 23)
    (round_half_even (x / ulp) : Rat) * ulp

/-- The binary32 division `a / b` of two floats: the exact quotient rounded to
binary32, `none` when the result is not finite (division by zero, overflow). -/
def float_div (a b : Rat) : Option Rat :=
  if b = 0 then none
  else
    let q := round_binary32 (a / b)
    if (2 : Rat) ^ 128 ≤ |q| then none else some q

/-- The C conversion of an `int` to float. -/
def int_to_float (i : Int) : Rat :=
  round_binary32 (i : Rat)

/-- The C conversion of a float to `int`: truncation toward zero, undefined
(`none`) when the truncated value is outside the 32-bit range. -/
def float_to_int (x : Rat) : Option Int :=
  let t := Int.tdiv x.num x.den
  if -(2 : Int) ^ 31 ≤ t ∧ t < (2 : Int) ^ 31 then some t else none

/-- The function `libvlc_media_instance_set_rate`, for a binary32 `rate`;
`none` is the undefined conversion of a non-finite or out-of-range
`1000.0f/rate` to `int`. -/
def libvlc_media_instance_set_rate (w : World) (rate : Rat) : Option World :=
  if rate ≤ 0 then some (libvlc_exception_raise w "Rate value is invalid")
  else
    match (float_div 1000 rate).bind float_to_int with
    | none => none
    | some i =>
      let val : vlc_value_t := { i_int := i }
      match libvlc_get_input_thread w with
      | (none, w1) => some w1
      | (some p, w1) => some (vlc_object_release (var_Set w1 p "rate" val) p)

/-- The function `libvlc_media_instance_get_rate`; the float it returns is the
binary32 quotient of 1000 by the stored integer converted to float, or `none`
for the non-finite quotient by a stored zero. -/
def libvlc_media_instance_get_rate (w : World) : Option Rat × World :=
  match libvlc_get_input_thread w with
  | (none, w1) => (some (-1), w1)
  | (some p, w1) =>
    let val := var_Get w1 p "rate"
    let w2 := vlc_object_release w1 p
    (float_div 1000 (int_to_float val.i_int), w2)

/-- The value a 64-bit signed computation (`libvlc_time_t`, the `LL`
arithmetic on `i_time`) keeps of the integer `x`: `x` modulo `2 ^ 64`, taken
in the range from `-2 ^ 63` to `2 ^ 63 - 1`. -/
def wrap_int64 (x : Int) : Int :=
  (x + 2 ^ 63) % 2 ^ 64 - 2 ^ 63

/-- The function `libvlc_media_instance_get_length`; the division of C
truncates toward zero. -/
def libvlc_media_instance_get_length (w : World) : Int × World :=
  match libvlc_get_input_thread w with
  | (none, w1) => (-1, w1)
  | (some p, w1) =>
    let val := var_Get w1 p "length"
    let w2 := vlc_object_release w1 p
    (Int.tdiv (wrap_int64 (val.i_time + 500)) 1000, w2)

/-- The function `libvlc_media_instance_get_time`. -/
def libvlc_media_instance_get_time (w : World) : Int × World :=
  match libvlc_get_input_thread w with
  | (none, w1) => (-1, w1)
  | (some p, w1) =>
    let val := var_Get w1 p "time"
    let w2 := vlc_object_release w1 p
    (Int.tdiv (wrap_int64 (val.i_time + 500)) 1000, w2)

/-- The function `libvlc_media_instance_set_time`. -/
def libvlc_media_instance_set_time (w : World) (time : Int) : World :=
  match libvlc_get_input_thread w with
  | (none, w1) => w1
  | (some p, w1) =>
    let value : vlc_value_t := { i_time := wrap_int64 (time * 1000) }
    vlc_object_release (var_Set w1 p "time" value) p

/-- The function `libvlc_media_instance_set_position`. -/
def libvlc_media_instance_set_position (w : World) (position : Rat) : World :=
  let val : vlc_value_t := { f_float := position }
  match libvlc_get_input_thread w with
  | (none, w1) => w1
  | (some p, w1) => vlc_object_release (var_Set w1 p "position" val) p

/-- The function `libvlc_media_instance_set_chapter`. -/
def libvlc_media_instance_set_chapter (w : World) (chapter : Int) : World :=
  let val : vlc_value_t := { i_int := chapter }
  match libvlc_get_input_thread w with
  | (none, w1) => w1
  | (some p, w1) => vlc_object_release (var_Set w1 p "chapter" val) p

/-- The function `libvlc_media_instance_destroy`, the forced teardown of the
session `w.mi`.  It works on an exception object of its own, so the caller's
`p_e` comes back as it was. -/
def libvlc_media_instance_destroy (w : World) : World :=
  match libvlc_get_input_thread (libvlc_exception_clear w) with
  | (p_input_thread, w1) =>
    if libvlc_exception_raised w1 then
      -- no need to worry about no input thread
      { (libvlc_event_manager_release w1).emit Action.free with p_e := w.p_e }
    else
      let w2 := w1.emit Action.vlc_mutex_destroy
      let w3 :=
        match p_input_thread with
        | none => w2
        | some p => input_DestroyThread w2 p
      { (libvlc_media_descriptor_release w3).emit Action.free with p_e := w.p_e }

/-- The constructor `libvlc_media_instance_new_from_input_thread`.  `p_input`
is the input thread to adopt (null is `none`), `p_event_manager` what
`libvlc_event_manager_new` returns, and `p_md` what
`libvlc_media_descriptor_new_from_input_item` returns for the item of
`p_input` (null is `none`).  The result is the new session, or null; the
session slot of the world stays the caller's. -/
def libvlc_media_instance_new_from_input_thread (w : World)
    (p_libvlc_instance : Option Nat) (p_input : Option Nat)
    (p_event_manager : Option Nat) (p_md : Option libvlc_media_descriptor_t) :
    Option libvlc_media_instance_t × World :=
  match p_input with
  | none => (none, libvlc_exception_raise w "invalid input thread")
  | some p =>
    match libvlc_media_instance_new w p_libvlc_instance p_event_manager with
    | (none, w1) => (none, w1)
    | (some p_mi, w1) =>
      match p_md with
      | none =>
        let w2 := libvlc_media_instance_destroy { w1 with mi := { p_mi with p_md := none } }
        (none, { w2 with mi := w1.mi })
      | some md =>
        let p_mi1 : libvlc_media_instance_t :=
          { p_mi with p_md := some md, i_input_id := (p : Int),
                      b_own_its_input_thread := false }
        -- will be released in media_instance_release()
        let w2 := vlc_object_yield w1 p
        -- retain the input for the playlist (see corresponding hack in _release)
        let w3 := vlc_object_yield w2 p
        (some p_mi1, w3)

/-! ## Vocabulary of the claims -/

/-- The engine resource attached to the session: the registered object the
stored id resolves to, if any. -/
def attached (w : World) : Option Nat :=
  if w.mi.i_input_id < 0 then none
  else (w.objects w.mi.i_input_id.toNat).map (fun _ => w.mi.i_input_id.toNat)

/-- The world after a successful lookup of `p`: one more reference on `p` and
the lookup recorded. -/
def World.got (w : World) (p : Nat) : World :=
  (w.onObject p (fun o => { o with i_refcount := o.i_refcount + 1 })).emit
    (Action.vlc_object_get p)

/-- The calls by which `release_input_thread` detaches the resource `p`:
the lookup, the two releases, then stop and destroy for an owned resource,
one more release for an adopted one. -/
def detach_calls (own : Bool) (p : Nat) : List Action :=
  [Action.vlc_object_get p, Action.vlc_object_release p, Action.vlc_object_release p] ++
    (if own then
      [Action.input_StopThread p, Action.var_Destroy p "drawable", Action.input_DestroyThread p]
    else [Action.vlc_object_release p])

/-- The calls of the teardown of a session, in order: lock destruction, detach
of the attached resource (if any), release of the event bus, release of the
descriptor, and the free of the session. -/
def teardown_calls (w : World) : List Action :=
  [Action.vlc_mutex_destroy] ++
    (match attached w with
     | none => []
     | some p => detach_calls w.mi.b_own_its_input_thread p) ++
    [Action.libvlc_event_manager_release w.mi.p_event_manager,
     Action.libvlc_media_descriptor_release w.mi.p_md,
     Action.free]

/-- The object a call is issued against, for the calls that name one. -/
def Action.target : Action → Option Nat
  | Action.vlc_object_get p => some p
  | Action.vlc_object_yield p => some p
  | Action.vlc_object_release p => some p
  | Action.input_CreateThread _ _ => none
  | Action.input_Control_SET_STATE p _ => some p
  | Action.input_StopThread p => some p
  | Action.input_DestroyThread p => some p
  | Action.var_Create p _ => some p
  | Action.var_Destroy p _ => some p
  | Action.var_Set p _ _ => some p
  | Action.var_AddCallback p _ _ => some p
  | _ => none

/-- Whether a trace destroys some engine object and later issues another call
against the same object (a second destroy included). -/
def used_after_destroy : List Action → Bool
  | [] => false
  | a :: rest =>
    (match a with
     | Action.input_DestroyThread p => rest.any (fun b => b.target = some p)
     | _ => false) || used_after_destroy rest

/-- The calls of the creating branch of play on a session with render target
`drawable`, for the content item `item` and the new object `p`. -/
def create_calls (drawable : Int) (item : Nat) (p : Nat) : List Action :=
  [Action.input_CreateThread item p] ++
    (if drawable ≠ 0 then
      [Action.var_Create p "drawable", Action.var_Set p "drawable" { i_int := drawable }]
     else []) ++
    [Action.var_AddCallback p "state" Callback.input_state_changed,
     Action.var_AddCallback p "seekable" Callback.input_state_changed,
     Action.var_AddCallback p "pausable" Callback.input_state_changed,
     Action.var_AddCallback p "intf-change" Callback.input_position_changed,
     Action.var_AddCallback p "intf-change" Callback.input_time_changed,
     Action.vlc_object_yield p]

/-- The calls of stop on an attached resource `p`: the full detach for an
owned resource, lookup, halt request and release for an adopted one. -/
def stop_calls (own : Bool) (p : Nat) : List Action :=
  if own then detach_calls true p
  else [Action.vlc_object_get p, Action.input_StopThread p, Action.vlc_object_release p]

/-- Whether a call is a set-state command. -/
def Action.isSetState : Action → Bool
  | Action.input_Control_SET_STATE _ _ => true
  | _ => false

/-- Whether a call is a resource-creation call. -/
def Action.isCreate : Action → Bool
  | Action.input_CreateThread _ _ => true
  | _ => false

/-- An engine step between two calls: the engine, free to report any state and
any pausability, sets the `state` and `can-pause` variables of object `p`. -/
def engine_reports (w : World) (p : Nat) (state : Int) (can_pause : Bool) : World :=
  w.onObject p (fun o =>
    { o with vars := fun n =>
        if n = "state" then some { i_int := state }
        else if n = "can-pause" then some { b_bool := can_pause }
        else o.vars n })

/-- The reading of "within floating tolerance" with an explicit relative
tolerance `tol`: `x` differs from `r` by at most `tol` times the size of `r`. -/
def within_floating_tolerance (tol x r : Rat) : Prop :=
  |x - r| ≤ tol * |r|

instance (tol x r : Rat) : Decidable (within_floating_tolerance tol x r) := by
  unfold within_floating_tolerance
  infer_instance

/-- What `get_rate` returns right after `set_rate r`: `none` when the
conversion in `set_rate` is undefined, `some none` for a non-finite float. -/
def rate_round_trip (w : World) (r : Rat) : Option (Option Rat) :=
  (libvlc_media_instance_set_rate w r).map
    (fun v => (libvlc_media_instance_get_rate v).1)

/-- An engine step: the engine sets the raw `time` and `length` variables of
object `p` to `time` and `length`. -/
def engine_clock (w : World) (p : Nat) (time length : Int) : World :=
  w.onObject p (fun o =>
    { o with vars := fun n =>
        if n = "time" then some { i_time := time }
        else if n = "length" then some { i_time := length }
        else o.vars n })

/-- The registrations of the five public event kinds on event manager `em`,
in the order of `libvlc_media_instance_new`. -/
def register_calls (em : Nat) : List Action :=
  [Action.libvlc_event_manager_register_event_type em libvlc_MediaInstanceReachedEnd,
   Action.libvlc_event_manager_register_event_type em libvlc_MediaInstancePaused,
   Action.libvlc_event_manager_register_event_type em libvlc_MediaInstancePlayed,
   Action.libvlc_event_manager_register_event_type em libvlc_MediaInstancePositionChanged,
   Action.libvlc_event_manager_register_event_type em libvlc_MediaInstanceTimeChanged]

/-- The exception the lookup leaves when no resource is attached. -/
def missing_resource (w : World) : String :=
  if w.mi.i_input_id = -1 then "Input is NULL" else "Input does not exist"

/-- Round-to-nearest of `raw` to thousands: `q` is the result when `raw` lies
within 500 below and less than 500 above `1000 * q`. -/
def rounds_to_nearest (raw q : Int) : Prop :=
  1000 * q - 500 ≤ raw ∧ raw < 1000 * q + 500

instance (raw q : Int) : Decidable (rounds_to_nearest raw q) := by
  unfold rounds_to_nearest
  infer_instance

/-! ## Sample worlds -/

/-- A descriptor for content item 7 of top-level instance 2. -/
def sample_md : libvlc_media_descriptor_t :=
  { state := libvlc_NothingSpecial, p_input_item := 7, p_libvlc_instance := 2 }

/-- An input thread with one reference, in engine state `state`, pausable or
not, at time 1499 of 90000, position one half, and at the default rate. -/
def sample_input (state : Int) (can_pause : Bool) : input_thread_t :=
  { i_refcount := 1, b_die := false, b_dead := false, p_input_item := 7,
    vars := fun name =>
      if name = "state" then some { i_int := state }
      else if name = "can-pause" then some { b_bool := can_pause }
      else if name = "seekable" then some { b_bool := true }
      else if name = "rate" then some { i_int := 1000 }
      else if name = "time" then some { i_time := 1499 }
      else if name = "length" then some { i_time := 90000 }
      else if name = "position" then some { f_float := 1 / 2 }
      else if name = "chapter" then some {}
      else none,
    callbacks := [] }

/-- A world with no engine object and no call issued yet, around session `mi`. -/
def empty_world (mi : libvlc_media_instance_t) : World :=
  { mi := mi, objects := fun _ => none, i_counter := 0, p_e := none, trace := [] }

/-- The session `libvlc_media_instance_new_from_media_descriptor` builds for
`sample_md` with event manager 1 (reference count 1, no input thread). -/
def sample_fresh_mi : libvlc_media_instance_t :=
  { i_refcount := 1, i_input_id := -1, b_own_its_input_thread := true,
    p_md := some sample_md, drawable := 0, p_event_manager := 1, p_libvlc_instance := 2 }

/-- A freshly constructed session in a world without engine objects. -/
def sample_idle_world : World := empty_world sample_fresh_mi

/-- A session with reference count 1 whose input thread is object 0, owned or
adopted, the engine reporting `state` and `can_pause` for it. -/
def sample_world (own : Bool) (state : Int) (can_pause : Bool) : World :=
  { mi := { sample_fresh_mi with i_input_id := 0, b_own_its_input_thread := own },
    objects := fun q => if q = 0 then some (sample_input state can_pause) else none,
    i_counter := 1, p_e := none, trace := [] }

/-! ## Lemmas on the lookup -/

theorem attached_some_iff (w : World) (p : Nat) :
    attached w = some p ↔
      0 ≤ w.mi.i_input_id ∧ w.mi.i_input_id.toNat = p ∧ (w.objects p).isSome = true := by
  unfold attached
  by_cases h : w.mi.i_input_id < 0
  · simp only [h, if_true]
    constructor
    · intro hc
      cases hc
    · intro hc
      omega
  · simp only [h, if_false]
    have h0 : 0 ≤ w.mi.i_input_id := by omega
    cases hobj : w.objects w.mi.i_input_id.toNat with
    | none =>
      simp [h0]
      intro hp
      subst hp
      simp [hobj]
    | some o =>
      simp [h0]
      intro hp
      subst hp
      simp [hobj]

theorem vlc_object_get_attached (w : World) (p : Nat) (h : attached w = some p) :
    vlc_object_get w w.mi.i_input_id = (some p, w.got p) := by
  obtain ⟨h0, hp, ho⟩ := (attached_some_iff w p).1 h
  have hlt : ¬ w.mi.i_input_id < 0 := by omega
  unfold vlc_object_get
  rw [if_neg hlt, hp]
  cases hobj : w.objects p with
  | none => simp [hobj] at ho
  | some o => rfl

theorem vlc_object_get_not_attached (w : World) (h : attached w = none) :
    vlc_object_get w w.mi.i_input_id = (none, w) := by
  unfold vlc_object_get
  unfold attached at h
  by_cases hlt : w.mi.i_input_id < 0
  · rw [if_pos hlt]
  · rw [if_neg hlt]
    rw [if_neg hlt] at h
    cases hobj : w.objects w.mi.i_input_id.toNat with
    | none => rfl
    | some o => simp [hobj] at h

theorem libvlc_get_input_thread_attached (w : World) (p : Nat) (h : attached w = some p) :
    libvlc_get_input_thread w = (some p, w.got p) := by
  obtain ⟨h0, _, _⟩ := (attached_some_iff w p).1 h
  have hne : ¬ w.mi.i_input_id = -1 := by omega
  unfold libvlc_get_input_thread
  rw [if_neg hne, vlc_object_get_attached w p h]

theorem libvlc_get_input_thread_not_attached (w : World) (h : attached w = none) :
    libvlc_get_input_thread w =
      (none, { w with p_e := some (if w.mi.i_input_id = -1 then "Input is NULL"
                                    else "Input does not exist") }) := by
  unfold libvlc_get_input_thread
  by_cases hne : w.mi.i_input_id = -1
  · rw [if_pos hne, if_pos hne]; rfl
  · rw [if_neg hne, if_neg hne, vlc_object_get_not_attached w h]; rfl

theorem release_input_thread_not_attached (w : World) (h : attached w = none) :
    release_input_thread w = { w with mi := { w.mi with i_input_id := -1 } } := by
  unfold release_input_thread
  by_cases hne : w.mi.i_input_id = -1
  · rw [if_pos hne]
    cases w with
    | mk mi objects i_counter p_e trace =>
      cases mi
      simp at hne
      simp [hne]
  · rw [if_neg hne, vlc_object_get_not_attached w h]

/-! ## Reference counting -/

theorem wrap_int32_id (x : Int) (h0 : -(2 : Int) ^ 31 ≤ x) (h1 : x < (2 : Int) ^ 31) :
    wrap_int32 x = x := by
  unfold wrap_int32
  norm_num at h0 h1 ⊢
  omega

theorem wrap_int32_succ (x : Int) : wrap_int32 (wrap_int32 x + 1) = wrap_int32 (x + 1) := by
  unfold wrap_int32
  norm_num
  omega

theorem release_retain (w : World) (h : 1 ≤ w.mi.i_refcount)
    (h2 : w.mi.i_refcount ≤ 2 ^ 31 - 1) :
    libvlc_media_instance_release (libvlc_media_instance_retain w) = w := by
  have hw : wrap_int32 (wrap_int32 (w.mi.i_refcount + 1) - 1) = w.mi.i_refcount := by
    unfold wrap_int32
    norm_num at h2 ⊢
    omega
  have hpos : wrap_int32 (wrap_int32 (w.mi.i_refcount + 1) - 1) > 0 := by
    rw [hw]
    omega
  unfold libvlc_media_instance_release libvlc_media_instance_retain
  simp only [hpos, if_true]
  rw [hw]

theorem retain_iterate (m : Nat) :
    ∀ v : World, wrap_int32 v.mi.i_refcount = v.mi.i_refcount →
      libvlc_media_instance_retain^[m] v =
        { v with mi := { v.mi with i_refcount := wrap_int32 (v.mi.i_refcount + (m : Int)) } } := by
  induction m with
  | zero =>
    intro v hv
    simp only [Function.iterate_zero, id_eq, Nat.cast_zero, add_zero, hv]
  | succ j ih =>
    intro v hv
    rw [Function.iterate_succ_apply', ih v hv]
    unfold libvlc_media_instance_retain
    simp only [wrap_int32_succ]
    push_cast
    rw [add_assoc]

theorem release_iterate_retain_iterate (n : Nat) :
    ∀ w : World, 1 ≤ w.mi.i_refcount → w.mi.i_refcount + (n : Int) ≤ 2 ^ 31 →
      libvlc_media_instance_release^[n] (libvlc_media_instance_retain^[n] w) = w := by
  induction n with
  | zero => intro w _ _; rfl
  | succ k ih =>
    intro w h hn
    push_cast at hn
    have e1 : libvlc_media_instance_retain^[k + 1] w
        = libvlc_media_instance_retain^[k] (libvlc_media_instance_retain w) :=
      Function.iterate_succ_apply _ _ _
    have e2 : ∀ y, libvlc_media_instance_release^[k + 1] y
        = libvlc_media_instance_release^[k] (libvlc_media_instance_release y) :=
      fun y => Function.iterate_succ_apply _ _ _
    have e3 : ∀ m v, libvlc_media_instance_retain^[m] (libvlc_media_instance_retain v)
        = libvlc_media_instance_retain (libvlc_media_instance_retain^[m] v) := by
      intro m v
      rw [← Function.iterate_succ_apply, Function.iterate_succ_apply']
    have hid : wrap_int32 w.mi.i_refcount = w.mi.i_refcount :=
      wrap_int32_id _ (by norm_num; omega) (by norm_num at hn ⊢; omega)
    have hk : (libvlc_media_instance_retain^[k] w).mi.i_refcount
        = w.mi.i_refcount + (k : Int) := by
      rw [retain_iterate k w hid]
      exact wrap_int32_id _ (by norm_num; omega) (by norm_num at hn ⊢; omega)
    rw [e1, e2, e3, release_retain _ (by rw [hk]; omega) (by rw [hk]; omega)]
    exact ih w h (by omega)

theorem release_input_thread_spec (w : World) :
    (release_input_thread w).mi = { w.mi with i_input_id := -1 } ∧
    (release_input_thread w).p_e = w.p_e ∧
    (release_input_thread w).i_counter = w.i_counter ∧
    (release_input_thread w).trace = w.trace ++
      (match attached w with
       | none => []
       | some p => detach_calls w.mi.b_own_its_input_thread p) := by
  cases hatt : attached w with
  | none =>
    rw [release_input_thread_not_attached w hatt]
    simp
  | some p =>
    obtain ⟨h0, _, _⟩ := (attached_some_iff w p).1 hatt
    have hne : ¬ w.mi.i_input_id = -1 := by omega
    unfold release_input_thread
    rw [if_neg hne, vlc_object_get_attached w p hatt]
    cases hown : w.mi.b_own_its_input_thread <;>
      simp [hown, World.got, World.emit, World.onObject, vlc_object_release,
        input_DestroyThread, var_Destroy, input_StopThread, detach_calls]

theorem release_teardown (w : World) (h : ¬ wrap_int32 (w.mi.i_refcount - 1) > 0) :
    (libvlc_media_instance_release w).mi.i_refcount = wrap_int32 (w.mi.i_refcount - 1) ∧
      (libvlc_media_instance_release w).trace = w.trace ++ teardown_calls w := by
  unfold libvlc_media_instance_release
  simp only [h, if_false]
  obtain ⟨hm, _, _, ht⟩ := release_input_thread_spec
    ({ w with mi := { w.mi with i_refcount := wrap_int32 (w.mi.i_refcount - 1) } }.emit
      Action.vlc_mutex_destroy)
  have hatt : attached
      ({ w with mi := { w.mi with i_refcount := wrap_int32 (w.mi.i_refcount - 1) } }.emit
        Action.vlc_mutex_destroy) = attached w := rfl
  rw [hatt] at ht
  constructor
  · show (release_input_thread _).mi.i_refcount = _
    rw [hm]
    rfl
  · show (release_input_thread _).trace ++
      [Action.libvlc_event_manager_release (release_input_thread _).mi.p_event_manager] ++
      [Action.libvlc_media_descriptor_release (release_input_thread _).mi.p_md] ++
      [Action.free] = _
    rw [ht, hm]
    simp [World.emit, teardown_calls]

theorem release_last (w : World) (h : w.mi.i_refcount = 1) :
    (libvlc_media_instance_release w).mi.i_refcount = 0 ∧
      (libvlc_media_instance_release w).trace = w.trace ++ teardown_calls w := by
  have hz : wrap_int32 (w.mi.i_refcount - 1) = 0 := by rw [h]; decide
  obtain ⟨h1, h2⟩ := release_teardown w (by rw [hz]; decide)
  exact ⟨by rw [h1, hz], h2⟩

theorem release_trace_length (w : World) :
    w.trace.length ≤ (libvlc_media_instance_release w).trace.length := by
  by_cases h : wrap_int32 (w.mi.i_refcount - 1) > 0
  · unfold libvlc_media_instance_release
    simp only [h, if_true]
    exact le_refl _
  · rw [(release_teardown w h).2, List.length_append]
    omega

theorem release_iterate_trace_length (m : Nat) :
    ∀ v : World, v.trace.length ≤ (libvlc_media_instance_release^[m] v).trace.length := by
  induction m with
  | zero => intro v; exact le_refl _
  | succ j ih =>
    intro v
    rw [Function.iterate_succ_apply']
    exact le_trans (ih v) (release_trace_length _)

theorem teardown_calls_length (w : World) : 4 ≤ (teardown_calls w).length := by
  unfold teardown_calls
  simp only [List.length_append, List.length_cons, List.length_nil]
  omega

theorem teardown_calls_congr (v w : World) (h1 : v.mi.i_input_id = w.mi.i_input_id)
    (h2 : v.objects = w.objects)
    (h3 : v.mi.b_own_its_input_thread = w.mi.b_own_its_input_thread)
    (h4 : v.mi.p_event_manager = w.mi.p_event_manager) (h5 : v.mi.p_md = w.mi.p_md) :
    teardown_calls v = teardown_calls w := by
  have hatt : attached v = attached w := by
    unfold attached
    rw [h1, h2]
  unfold teardown_calls
  rw [hatt, h3, h4, h5]

/-- After `n` retains whose wrapped count is no longer positive once
decremented, the first release already tears the session down, and the `n`
releases do not give back the world. -/
theorem release_after_wrapped_retains (w : World) (n : Nat) (h : w.mi.i_refcount = 1)
    (hpos : 0 < n) (hn : ¬ wrap_int32 (wrap_int32 (1 + (n : Int)) - 1) > 0) :
    (libvlc_media_instance_retain^[n] w).mi.i_refcount = wrap_int32 (1 + (n : Int)) ∧
    (libvlc_media_instance_release (libvlc_media_instance_retain^[n] w)).trace
      = w.trace ++ teardown_calls w ∧
    libvlc_media_instance_release^[n] (libvlc_media_instance_retain^[n] w) ≠ w := by
  have hid : wrap_int32 w.mi.i_refcount = w.mi.i_refcount := by rw [h]; decide
  have hret := retain_iterate n w hid
  rw [h] at hret
  have key : ∀ c : Int, ¬ wrap_int32 (c - 1) > 0 →
      (libvlc_media_instance_release
        ({ w with mi := { w.mi with i_refcount := c } } : World)).trace
          = w.trace ++ teardown_calls w := by
    intro c hc
    have hrel := release_teardown ({ w with mi := { w.mi with i_refcount := c } } : World) hc
    have htd : teardown_calls ({ w with mi := { w.mi with i_refcount := c } } : World)
        = teardown_calls w :=
      teardown_calls_congr ({ w with mi := { w.mi with i_refcount := c } } : World) w
        rfl rfl rfl rfl rfl
    rw [htd] at hrel
    exact hrel.2
  have hrel2 := key (wrap_int32 (1 + (n : Int))) hn
  refine ⟨by rw [hret], by rw [hret]; exact hrel2, ?_⟩
  intro heq
  obtain ⟨m, hm⟩ : ∃ m, n = m + 1 := ⟨n - 1, by omega⟩
  have hlen := release_iterate_trace_length m
    (libvlc_media_instance_release (libvlc_media_instance_retain^[n] w))
  have hstep : libvlc_media_instance_release^[m]
      (libvlc_media_instance_release (libvlc_media_instance_retain^[n] w))
        = libvlc_media_instance_release^[n] (libvlc_media_instance_retain^[n] w) := by
    rw [hm]
    exact (Function.iterate_succ_apply libvlc_media_instance_release m _).symm
  rw [hstep, heq] at hlen
  rw [hret, hrel2, List.length_append] at hlen
  have := teardown_calls_length w
  omega

/-- C1, the claim refuted at `n = 2 ^ 31`: after that many retains the 32-bit
count of a fresh session has wrapped to `-2 ^ 31 + 1`, the first of the
releases finds it not positive and tears the session down (the resource is
destroyed, the event bus, the descriptor and the session are released), and
the `n` releases do not leave the world as it was. -/
theorem C1_counterexample_count_wraps :
    (sample_world true PLAYING_S true).mi.i_refcount = 1 ∧
    (libvlc_media_instance_retain^[2 ^ 31] (sample_world true PLAYING_S true)).mi.i_refcount
      = -2 ^ 31 + 1 ∧
    (libvlc_media_instance_release
      (libvlc_media_instance_retain^[2 ^ 31] (sample_world true PLAYING_S true))).trace
      = [Action.vlc_mutex_destroy, Action.vlc_object_get 0, Action.vlc_object_release 0,
         Action.vlc_object_release 0, Action.input_StopThread 0,
         Action.var_Destroy 0 "drawable", Action.input_DestroyThread 0,
         Action.libvlc_event_manager_release 1,
         Action.libvlc_media_descriptor_release (some sample_md), Action.free] ∧
    libvlc_media_instance_release^[2 ^ 31]
      (libvlc_media_instance_retain^[2 ^ 31] (sample_world true PLAYING_S true))
      ≠ sample_world true PLAYING_S true := by
  obtain ⟨h1, h2, h3⟩ := release_after_wrapped_retains (sample_world true PLAYING_S true)
    (2 ^ 31) rfl (by decide) (by decide)
  refine ⟨rfl, ?_, ?_, h3⟩
  · rw [h1]
    decide
  · rw [h2]
    rfl

/-- C1, as amended.  On a session with reference count 1 (as every constructor
leaves it) and for every `n` below `2 ^ 31`, `n` retains followed by `n`
releases give back exactly the world they started from (session fields,
engine objects, exception and trace, so no teardown call was issued), and the
next release brings the count to zero and appends exactly the teardown calls,
in which the detach of the resource happens at most once and the release of
the event bus, the release of the descriptor and the free of the session
happen exactly once. -/
theorem C1_retain_release_then_teardown_once (w : World) (n : Nat)
    (h : w.mi.i_refcount = 1) (hn : n < 2 ^ 31) :
    libvlc_media_instance_release^[n] (libvlc_media_instance_retain^[n] w) = w ∧
    (libvlc_media_instance_release^[n + 1]
        (libvlc_media_instance_retain^[n] w)).mi.i_refcount = 0 ∧
    (libvlc_media_instance_release^[n + 1] (libvlc_media_instance_retain^[n] w)).trace
        = w.trace ++ teardown_calls w ∧
    (teardown_calls w).count Action.free = 1 ∧
    (teardown_calls w).count (Action.libvlc_event_manager_release w.mi.p_event_manager) = 1 ∧
    (teardown_calls w).count (Action.libvlc_media_descriptor_release w.mi.p_md) = 1 ∧
    (∀ p, (teardown_calls w).count (Action.input_DestroyThread p) ≤ 1) ∧
    (∀ p, attached w = some p → w.mi.b_own_its_input_thread = true →
      (teardown_calls w).count (Action.input_DestroyThread p) = 1) := by
  have hn2 : w.mi.i_refcount + (n : Int) ≤ 2 ^ 31 := by
    rw [h]
    have : (n : Int) < 2 ^ 31 := by exact_mod_cast hn
    omega
  have hbal := release_iterate_retain_iterate n w (by omega) hn2
  have hlast := release_last w h
  refine ⟨hbal, ?_, ?_, ?_, ?_, ?_, ?_, ?_⟩
  · rw [Function.iterate_succ_apply', hbal]; exact hlast.1
  · rw [Function.iterate_succ_apply', hbal]; exact hlast.2
  · unfold teardown_calls detach_calls
    cases attached w <;> cases w.mi.b_own_its_input_thread <;> simp
  · unfold teardown_calls detach_calls
    cases attached w <;> cases w.mi.b_own_its_input_thread <;> simp
  · unfold teardown_calls detach_calls
    cases attached w <;> cases w.mi.b_own_its_input_thread <;> simp
  · intro p
    unfold teardown_calls detach_calls
    cases attached w <;> cases w.mi.b_own_its_input_thread <;>
      simp [List.count_cons]
    split <;> simp
  · intro p hp hown
    unfold teardown_calls detach_calls
    simp [hp, hown, List.count_cons]

/-- Both constructors leave a session with reference count 1, no input thread
and the owns-resource flag set. -/
theorem constructed_refcount (w : World) (p_md : libvlc_media_descriptor_t)
    (inst em : Option Nat) (p_mi : libvlc_media_instance_t)
    (h : (libvlc_media_instance_new w inst em).1 = some p_mi ∨
      (libvlc_media_instance_new_from_media_descriptor w p_md em).1 = some p_mi) :
    p_mi.i_refcount = 1 ∧ p_mi.i_input_id = -1 ∧ p_mi.b_own_its_input_thread = true := by
  have hnew : ∀ (i : Option Nat) (m : libvlc_media_instance_t),
      (libvlc_media_instance_new w i em).1 = some m →
        m.i_refcount = 1 ∧ m.i_input_id = -1 ∧ m.b_own_its_input_thread = true := by
    intro i m hm
    unfold libvlc_media_instance_new at hm
    cases i with
    | none => simp at hm
    | some j =>
      simp only at hm
      split at hm
      · simp at hm
      · simp only [Option.some.injEq] at hm
        subst hm
        exact ⟨rfl, rfl, rfl⟩
  rcases h with h | h
  · exact hnew inst p_mi h
  · unfold libvlc_media_instance_new_from_media_descriptor at h
    cases hc : libvlc_media_instance_new w (some p_md.p_libvlc_instance) em with
    | mk r w1 =>
      rw [hc] at h
      cases r with
      | none => simp at h
      | some m =>
        simp only [Option.some.injEq] at h
        subst h
        have := hnew (some p_md.p_libvlc_instance) m (by rw [hc])
        exact this

/-- The constructor output used by the samples is what the source builds. -/
theorem sample_fresh_mi_constructed :
    (libvlc_media_instance_new_from_media_descriptor
      (empty_world sample_fresh_mi) sample_md (some 1)).1 = some sample_fresh_mi := by
  rfl

/-- C1 as amended, at the sample session that owns object 0, with three
retains. -/
theorem C1_witness :
    (sample_world true PLAYING_S true).mi.i_refcount = 1 ∧
    (libvlc_media_instance_release^[3 + 1]
      (libvlc_media_instance_retain^[3] (sample_world true PLAYING_S true))).trace
      = [Action.vlc_mutex_destroy, Action.vlc_object_get 0, Action.vlc_object_release 0,
         Action.vlc_object_release 0, Action.input_StopThread 0,
         Action.var_Destroy 0 "drawable", Action.input_DestroyThread 0,
         Action.libvlc_event_manager_release 1,
         Action.libvlc_media_descriptor_release (some sample_md), Action.free] :=
  ⟨rfl,
    (C1_retain_release_then_teardown_once (sample_world true PLAYING_S true) 3 rfl
      (by decide)).2.2.1⟩

/-- C2, evaluated at the failing input.  A freshly constructed session plays
(which creates object 0 and owns it), the engine reports Playing and not
pausable, and the session is paused.  Pause falls back to stop, which destroys
the resource, and then releases the reference it took at its own lookup: the
last call of the trace is issued against the object destroyed by the call
before it. -/
theorem C2_pause_releases_destroyed_resource :
    (libvlc_media_instance_pause
      (engine_reports (libvlc_media_instance_play sample_idle_world) 0 PLAYING_S false)).trace
      = create_calls 0 7 0 ++
        [Action.vlc_object_get 0, Action.vlc_object_get 0, Action.vlc_object_release 0,
         Action.vlc_object_get 0, Action.vlc_object_release 0, Action.vlc_object_release 0,
         Action.input_StopThread 0, Action.var_Destroy 0 "drawable",
         Action.input_DestroyThread 0, Action.vlc_object_release 0] ∧
    used_after_destroy
      (libvlc_media_instance_pause
        (engine_reports (libvlc_media_instance_play sample_idle_world) 0 PLAYING_S
          false)).trace = true := by
  constructor
  · rfl
  · rfl

/-! ## Play -/

theorem attached_got (w : World) (p : Nat) (h : attached w = some p) :
    attached (w.got p) = some p := by
  obtain ⟨h0, hp, ho⟩ := (attached_some_iff w p).1 h
  apply (attached_some_iff _ p).2
  refine ⟨h0, hp, ?_⟩
  show (if p = p then (w.objects p).map _ else w.objects p).isSome = true
  rw [if_pos rfl]
  cases hobj : w.objects p with
  | none => simp [hobj] at ho
  | some o => rfl

theorem play_attached (w : World) (p : Nat) (h : attached w = some p) :
    (libvlc_media_instance_play w).mi = w.mi ∧
    (libvlc_media_instance_play w).p_e = w.p_e ∧
    (libvlc_media_instance_play w).i_counter = w.i_counter ∧
    (libvlc_media_instance_play w).trace = w.trace ++
      [Action.vlc_object_get p, Action.input_Control_SET_STATE p PLAYING_S,
       Action.vlc_object_release p] := by
  unfold libvlc_media_instance_play
  rw [libvlc_get_input_thread_attached w p h]
  simp [World.got, World.emit, World.onObject, vlc_object_release, input_Control_SET_STATE]

theorem play_not_attached (w : World) (md : libvlc_media_descriptor_t)
    (hmd : w.mi.p_md = some md) (h : attached w = none) :
    (libvlc_media_instance_play w).mi = { w.mi with i_input_id := (w.i_counter : Int) } ∧
    (libvlc_media_instance_play w).p_e = none ∧
    (libvlc_media_instance_play w).i_counter = w.i_counter + 1 ∧
    (libvlc_media_instance_play w).trace = w.trace ++
      create_calls w.mi.drawable md.p_input_item w.i_counter ∧
    ((libvlc_media_instance_play w).objects w.i_counter).map (fun o => o.i_refcount)
      = some 1 ∧
    attached (libvlc_media_instance_play w) = some w.i_counter := by
  unfold libvlc_media_instance_play
  rw [libvlc_get_input_thread_not_attached w h]
  simp only [libvlc_exception_clear, hmd, input_CreateThread]
  by_cases hd : w.mi.drawable = 0
  · simp [hd, attached, World.emit, World.onObject, vlc_object_yield, var_AddCallback,
      create_calls]
  · simp [hd, attached, World.emit, World.onObject, vlc_object_yield, var_AddCallback,
      create_calls, var_Set, var_Create]

/-- C3. On a session with a descriptor and no attached resource, the first
play takes the creating branch: it issues one `input_CreateThread`, records
the new object id in the session, registers the five callbacks and retains the
new object once, leaving no exception.  The second play, run in any world
that has the session and the trace the first play left and in which the
created id still resolves, only looks the resource up, sends it "set state =
Playing" and releases the lookup reference; it changes no session field, and
the two calls together issue exactly one resource-creation call. -/
theorem C3_play_twice_creates_once (w : World) (md : libvlc_media_descriptor_t)
    (hmd : w.mi.p_md = some md) (hno : attached w = none)
    (w1 : World) (hmi : w1.mi = (libvlc_media_instance_play w).mi)
    (htr : w1.trace = (libvlc_media_instance_play w).trace)
    (hres : (w1.objects w.i_counter).isSome = true) :
    (libvlc_media_instance_play w).mi = { w.mi with i_input_id := (w.i_counter : Int) } ∧
    (libvlc_media_instance_play w).p_e = none ∧
    (libvlc_media_instance_play w).trace = w.trace ++
      create_calls w.mi.drawable md.p_input_item w.i_counter ∧
    ((libvlc_media_instance_play w).objects w.i_counter).map (fun o => o.i_refcount)
      = some 1 ∧
    (libvlc_media_instance_play w1).mi = w1.mi ∧
    (libvlc_media_instance_play w1).trace = w1.trace ++
      [Action.vlc_object_get w.i_counter,
       Action.input_Control_SET_STATE w.i_counter PLAYING_S,
       Action.vlc_object_release w.i_counter] ∧
    ((libvlc_media_instance_play w1).trace.drop w.trace.length).countP Action.isCreate
      = 1 := by
  obtain ⟨h1, h2, _, h4, h5, _⟩ := play_not_attached w md hmd hno
  have hatt1 : attached w1 = some w.i_counter := by
    apply (attached_some_iff _ _).2
    rw [hmi, h1]
    exact ⟨by simp, by simp, hres⟩
  obtain ⟨k1, _, _, k4⟩ := play_attached w1 w.i_counter hatt1
  refine ⟨h1, h2, h4, h5, k1, k4, ?_⟩
  rw [k4, htr, h4, List.append_assoc, List.drop_left]
  unfold create_calls
  by_cases hd : w.mi.drawable = 0 <;> simp [hd, Action.isCreate, List.countP_cons]

/-- C3 at the freshly constructed sample session. -/
theorem C3_witness :
    sample_idle_world.mi.p_md = some sample_md ∧ attached sample_idle_world = none ∧
    (libvlc_media_instance_play (libvlc_media_instance_play sample_idle_world)).trace
      = (libvlc_media_instance_play sample_idle_world).trace ++
        [Action.vlc_object_get 0, Action.input_Control_SET_STATE 0 PLAYING_S,
         Action.vlc_object_release 0] :=
  ⟨rfl, rfl,
    (C3_play_twice_creates_once sample_idle_world sample_md rfl rfl
      (libvlc_media_instance_play sample_idle_world) rfl rfl rfl).2.2.2.2.2.1⟩

/-! ## The notification callbacks -/

/-- C4. A state-change notification (command "state", new value with code
`c`) delivered to a session whose descriptor is `md` emits exactly one event
and overwrites the descriptor's cached state for the four codes End (ReachedEnd,
nothing special), Pause (Paused, playing), Playing (Played, playing) and Error
(ReachedEnd, error); for every other code the world is left as it was: no
event, cached state untouched. -/
theorem C4_state_callback (w : World) (md : libvlc_media_descriptor_t)
    (hmd : w.mi.p_md = some md) (p_this : Nat) (oldval newval : vlc_value_t) :
    (newval.i_int = END_S →
      input_state_changed w p_this "state" oldval newval =
        { w with
          mi := { w.mi with p_md := some { md with state := libvlc_NothingSpecial } },
          trace := w.trace ++ [Action.libvlc_event_send w.mi.p_event_manager
            { type := libvlc_MediaInstanceReachedEnd }] }) ∧
    (newval.i_int = PAUSE_S →
      input_state_changed w p_this "state" oldval newval =
        { w with
          mi := { w.mi with p_md := some { md with state := libvlc_Playing } },
          trace := w.trace ++ [Action.libvlc_event_send w.mi.p_event_manager
            { type := libvlc_MediaInstancePaused }] }) ∧
    (newval.i_int = PLAYING_S →
      input_state_changed w p_this "state" oldval newval =
        { w with
          mi := { w.mi with p_md := some { md with state := libvlc_Playing } },
          trace := w.trace ++ [Action.libvlc_event_send w.mi.p_event_manager
            { type := libvlc_MediaInstancePlayed }] }) ∧
    (newval.i_int = ERROR_S →
      input_state_changed w p_this "state" oldval newval =
        { w with
          mi := { w.mi with p_md := some { md with state := libvlc_Error } },
          trace := w.trace ++ [Action.libvlc_event_send w.mi.p_event_manager
            { type := libvlc_MediaInstanceReachedEnd }] }) ∧
    (newval.i_int ≠ END_S → newval.i_int ≠ PAUSE_S → newval.i_int ≠ PLAYING_S →
      newval.i_int ≠ ERROR_S →
      input_state_changed w p_this "state" oldval newval = w) := by
  refine ⟨?_, ?_, ?_, ?_, ?_⟩
  · intro hc
    simp [input_state_changed, hc, libvlc_event_send, libvlc_media_descriptor_set_state,
      World.emit, hmd]
  · intro hc
    simp [input_state_changed, hc, libvlc_event_send, libvlc_media_descriptor_set_state,
      World.emit, hmd, PAUSE_S, END_S]
  · intro hc
    simp [input_state_changed, hc, libvlc_event_send, libvlc_media_descriptor_set_state,
      World.emit, hmd, PAUSE_S, END_S, PLAYING_S]
  · intro hc
    simp [input_state_changed, hc, libvlc_event_send, libvlc_media_descriptor_set_state,
      World.emit, hmd, PAUSE_S, END_S, PLAYING_S, ERROR_S]
  · intro h1 h2 h3 h4
    simp [input_state_changed, h1, h2, h3, h4]

/-- C4 at an Error notification on the sample session. -/
theorem C4_witness :
    (sample_world true PLAYING_S true).mi.p_md = some sample_md ∧
    (input_state_changed (sample_world true PLAYING_S true) 0 "state"
        { i_int := PLAYING_S } { i_int := ERROR_S }).trace
      = [Action.libvlc_event_send 1 { type := libvlc_MediaInstanceReachedEnd }] ∧
    ((input_state_changed (sample_world true PLAYING_S true) 0 "state"
        { i_int := PLAYING_S } { i_int := ERROR_S }).mi.p_md).map (fun d => d.state)
      = some libvlc_Error :=
  ⟨rfl,
    congrArg World.trace
      ((C4_state_callback (sample_world true PLAYING_S true) sample_md rfl 0
        { i_int := PLAYING_S } { i_int := ERROR_S }).2.2.2.1 rfl),
    congrArg (fun v => (v.mi.p_md).map (fun d => d.state))
      ((C4_state_callback (sample_world true PLAYING_S true) sample_md rfl 0
        { i_int := PLAYING_S } { i_int := ERROR_S }).2.2.2.1 rfl)⟩

/-- C5. On an "interface changed" notification (a command that starts with
`intf`), the time callback and the position callback each leave the world
untouched, so emit no event, when the engine's current state is not Playing,
and each append exactly one event of their own kind, carrying the engine's
current time, respectively position, when it is Playing. -/
theorem C5_time_position_callbacks (w : World) (p_this : Nat) (psz_cmd : String)
    (hcmd : strncmp_intf_4 psz_cmd = true) (oldval newval : vlc_value_t) :
    ((var_Get w p_this "state").i_int ≠ PLAYING_S →
      input_time_changed w p_this psz_cmd oldval newval = w ∧
      input_position_changed w p_this psz_cmd oldval newval = w) ∧
    ((var_Get w p_this "state").i_int = PLAYING_S →
      input_time_changed w p_this psz_cmd oldval newval =
        { w with trace := w.trace ++ [Action.libvlc_event_send w.mi.p_event_manager
          { type := libvlc_MediaInstanceTimeChanged,
            new_time := some (var_Get w p_this "time").i_time }] } ∧
      input_position_changed w p_this psz_cmd oldval newval =
        { w with trace := w.trace ++ [Action.libvlc_event_send w.mi.p_event_manager
          { type := libvlc_MediaInstancePositionChanged,
            new_position := some (var_Get w p_this "position").f_float }] }) := by
  constructor
  · intro hs
    simp [input_time_changed, input_position_changed, hcmd, hs]
  · intro hs
    simp [input_time_changed, input_position_changed, hcmd, hs, libvlc_event_send, World.emit]

/-- C5 at an "intf-change" notification while the engine is Playing. -/
theorem C5_witness :
    strncmp_intf_4 "intf-change" = true ∧
    (var_Get (sample_world true PLAYING_S true) 0 "state").i_int = PLAYING_S ∧
    (input_time_changed (sample_world true PLAYING_S true) 0 "intf-change" {} {}).trace
      = [Action.libvlc_event_send 1
          { type := libvlc_MediaInstanceTimeChanged, new_time := some 1499 }] :=
  ⟨by decide, rfl,
    congrArg World.trace
      ((C5_time_position_callbacks (sample_world true PLAYING_S true) 0 "intf-change"
        (by decide) {} {}).2 rfl).1⟩

/-! ## Stop and pause -/

theorem attached_onObject (w : World) (p : Nat) (f : input_thread_t → input_thread_t) :
    attached (w.onObject p f) = attached w := by
  unfold attached World.onObject
  by_cases h : w.mi.i_input_id < 0
  · simp [h]
  · simp only [h, if_false]
    by_cases hq : w.mi.i_input_id.toNat = p
    · simp only [hq, if_true]
      cases w.objects p <;> rfl
    · simp [hq]

theorem attached_release (w : World) (p q : Nat) :
    attached (vlc_object_release w q) = attached w ∧ attached (w.got q) = attached w ∧
    attached (input_StopThread w q) = attached w ∧
    attached (input_Control_SET_STATE w q p) = attached w :=
  ⟨attached_onObject w q _, attached_onObject w q _, attached_onObject w q _, rfl⟩

theorem var_Get_onObject (w : World) (p q : Nat) (name : String)
    (f : input_thread_t → input_thread_t) (hf : ∀ o, (f o).vars = o.vars) :
    var_Get (w.onObject p f) q name = var_Get w q name := by
  unfold var_Get World.onObject
  by_cases hq : q = p
  · simp only [hq, if_true]
    cases w.objects p with
    | none => rfl
    | some o => simp [hf]
  · simp only [hq, if_false]

theorem var_Get_got (w : World) (p q : Nat) (name : String) :
    var_Get (w.got p) q name = var_Get w q name :=
  var_Get_onObject w p q name _ (fun _ => rfl)

theorem var_Get_release (w : World) (p q : Nat) (name : String) :
    var_Get (vlc_object_release w p) q name = var_Get w q name :=
  var_Get_onObject w p q name _ (fun _ => rfl)

theorem stop_spec (w : World) (p : Nat) (hatt : attached w = some p) :
    (libvlc_media_instance_stop w).trace
      = w.trace ++ stop_calls w.mi.b_own_its_input_thread p ∧
    (libvlc_media_instance_stop w).mi
      = (if w.mi.b_own_its_input_thread then { w.mi with i_input_id := -1 } else w.mi) ∧
    (libvlc_media_instance_stop w).p_e = w.p_e ∧
    (libvlc_media_instance_stop w).i_counter = w.i_counter := by
  unfold libvlc_media_instance_stop
  cases hown : w.mi.b_own_its_input_thread with
  | true =>
    obtain ⟨hm, he, hc, ht⟩ := release_input_thread_spec w
    rw [hatt, hown] at ht
    simp only [if_true]
    exact ⟨by rw [ht]; rfl, hm, he, hc⟩
  | false =>
    simp only [Bool.false_eq_true, if_false]
    rw [libvlc_get_input_thread_attached w p hatt]
    simp [World.got, World.emit, World.onObject, vlc_object_release, input_StopThread,
      stop_calls]

theorem stop_objects (w : World) (p : Nat) (hatt : attached w = some p) :
    (w.mi.b_own_its_input_thread = true → (libvlc_media_instance_stop w).objects p = none) ∧
    (w.mi.b_own_its_input_thread = false →
      ((libvlc_media_instance_stop w).objects p).isSome = true) := by
  obtain ⟨h0, hp, ho⟩ := (attached_some_iff w p).1 hatt
  have hne : ¬ w.mi.i_input_id = -1 := by omega
  constructor
  · intro hown
    unfold libvlc_media_instance_stop release_input_thread
    rw [if_pos hown, if_neg hne, vlc_object_get_attached w p hatt]
    simp [hown, World.got, World.emit, World.onObject, vlc_object_release,
      input_DestroyThread, var_Destroy, input_StopThread]
  · intro hown
    unfold libvlc_media_instance_stop
    rw [hown]
    simp only [Bool.false_eq_true, if_false]
    rw [libvlc_get_input_thread_attached w p hatt]
    cases hobj : w.objects p with
    | none => simp [hobj] at ho
    | some o =>
      simp [World.got, World.emit, World.onObject, vlc_object_release, input_StopThread, hobj]

/-- C6. Stop follows the owns-resource flag.  On a session that owns its
attached resource `p`, stop looks the resource up, gives back the two
references, then stops and destroys it: the object leaves the registry, the
stored id becomes -1, nothing is attached any more, and a following play (the
descriptor being `md`) takes the creating branch and attaches the new object
made under the engine's next id.  On a session that does not own `p`, stop only
looks it up, asks the engine to halt it and releases the lookup reference: the
object stays registered and attached, and no session field changes. -/
theorem C6_stop_follows_ownership (w : World) (p : Nat) (hatt : attached w = some p) :
    (w.mi.b_own_its_input_thread = true →
      (libvlc_media_instance_stop w).trace = w.trace ++
        [Action.vlc_object_get p, Action.vlc_object_release p, Action.vlc_object_release p,
         Action.input_StopThread p, Action.var_Destroy p "drawable",
         Action.input_DestroyThread p] ∧
      (libvlc_media_instance_stop w).mi = { w.mi with i_input_id := -1 } ∧
      (libvlc_media_instance_stop w).objects p = none ∧
      attached (libvlc_media_instance_stop w) = none ∧
      ∀ md, w.mi.p_md = some md →
        (libvlc_media_instance_play (libvlc_media_instance_stop w)).trace =
          (libvlc_media_instance_stop w).trace ++
            create_calls w.mi.drawable md.p_input_item w.i_counter ∧
        attached (libvlc_media_instance_play (libvlc_media_instance_stop w))
          = some w.i_counter) ∧
    (w.mi.b_own_its_input_thread = false →
      (libvlc_media_instance_stop w).trace = w.trace ++
        [Action.vlc_object_get p, Action.input_StopThread p, Action.vlc_object_release p] ∧
      (libvlc_media_instance_stop w).mi = w.mi ∧
      ((libvlc_media_instance_stop w).objects p).isSome = true ∧
      attached (libvlc_media_instance_stop w) = some p) := by
  obtain ⟨ht, hm, _, hc⟩ := stop_spec w p hatt
  obtain ⟨ho1, ho2⟩ := stop_objects w p hatt
  constructor
  · intro hown
    rw [hown] at ht hm
    simp only [if_true] at hm
    have hnone : attached (libvlc_media_instance_stop w) = none := by
      unfold attached
      rw [hm]
      simp
    refine ⟨ht, hm, ho1 hown, hnone, ?_⟩
    intro md hmd
    have hmd2 : (libvlc_media_instance_stop w).mi.p_md = some md := by rw [hm]; exact hmd
    obtain ⟨_, _, _, k4, _, k6⟩ :=
      play_not_attached (libvlc_media_instance_stop w) md hmd2 hnone
    rw [hc, hm] at k4
    rw [hc] at k6
    exact ⟨k4, k6⟩
  · intro hown
    rw [hown] at ht hm
    simp only [Bool.false_eq_true, if_false] at hm
    refine ⟨ht, hm, ho2 hown, ?_⟩
    apply (attached_some_iff _ p).2
    obtain ⟨h0, hp, _⟩ := (attached_some_iff w p).1 hatt
    rw [hm]
    exact ⟨h0, hp, ho2 hown⟩

/-- C6 at the owning and at the adopting sample session. -/
theorem C6_witness :
    attached (sample_world true PLAYING_S true) = some 0 ∧
    (sample_world true PLAYING_S true).mi.b_own_its_input_thread = true ∧
    (libvlc_media_instance_stop (sample_world true PLAYING_S true)).mi.i_input_id = -1 ∧
    attached (sample_world false PLAYING_S true) = some 0 ∧
    (sample_world false PLAYING_S true).mi.b_own_its_input_thread = false ∧
    (libvlc_media_instance_stop (sample_world false PLAYING_S true)).trace
      = [Action.vlc_object_get 0, Action.input_StopThread 0, Action.vlc_object_release 0] :=
  ⟨rfl, rfl,
    congrArg libvlc_media_instance_t.i_input_id
      (((C6_stop_follows_ownership (sample_world true PLAYING_S true) 0 rfl).1 rfl).2.1),
    rfl, rfl,
    ((C6_stop_follows_ownership (sample_world false PLAYING_S true) 0 rfl).2 rfl).1⟩

theorem can_pause_attached (w : World) (p : Nat) (hatt : attached w = some p) :
    libvlc_media_instance_can_pause w
      = ((var_Get w p "can-pause").b_bool, vlc_object_release (w.got p) p) := by
  unfold libvlc_media_instance_can_pause
  rw [libvlc_get_input_thread_attached w p hatt]
  simp only [var_Get_got]

theorem attached_after_lookup (w : World) (p : Nat) (hatt : attached w = some p) :
    attached (vlc_object_release ((w.got p).got p) p) = some p := by
  rw [(attached_release _ 0 p).1, (attached_release _ 0 p).2.1, (attached_release _ 0 p).2.1]
  exact hatt

/-- C7. Pause on a session with attached resource `p` acts on the engine's
current state.  Playing and pausable: besides its lookups it sends exactly
"set state = Paused".  Playing and not pausable: it runs the stop operation
(the calls appended are those stop issues on an owned, respectively adopted,
resource, and the session ends with the fields stop leaves) and sends no
set-state command.  Any other state: it sends exactly "set state = Playing".
In the two set-state cases no session field changes. -/
theorem C7_pause_by_state (w : World) (p : Nat) (hatt : attached w = some p) :
    ((var_Get w p "state").i_int = PLAYING_S → (var_Get w p "can-pause").b_bool = true →
      (libvlc_media_instance_pause w).trace = w.trace ++
        [Action.vlc_object_get p, Action.vlc_object_get p, Action.vlc_object_release p,
         Action.input_Control_SET_STATE p PAUSE_S, Action.vlc_object_release p] ∧
      (libvlc_media_instance_pause w).mi = w.mi) ∧
    ((var_Get w p "state").i_int = PLAYING_S → (var_Get w p "can-pause").b_bool = false →
      (libvlc_media_instance_pause w).trace = w.trace ++
        ([Action.vlc_object_get p, Action.vlc_object_get p, Action.vlc_object_release p] ++
          stop_calls w.mi.b_own_its_input_thread p ++ [Action.vlc_object_release p]) ∧
      (libvlc_media_instance_stop w).trace
        = w.trace ++ stop_calls w.mi.b_own_its_input_thread p ∧
      (libvlc_media_instance_pause w).mi = (libvlc_media_instance_stop w).mi ∧
      ((libvlc_media_instance_pause w).trace.drop w.trace.length).countP
        Action.isSetState = 0) ∧
    ((var_Get w p "state").i_int ≠ PLAYING_S →
      (libvlc_media_instance_pause w).trace = w.trace ++
        [Action.vlc_object_get p, Action.input_Control_SET_STATE p PLAYING_S,
         Action.vlc_object_release p] ∧
      (libvlc_media_instance_pause w).mi = w.mi) := by
  have hatt1 : attached (w.got p) = some p := attached_got w p hatt
  refine ⟨?_, ?_, ?_⟩
  · intro hs hc
    unfold libvlc_media_instance_pause
    rw [libvlc_get_input_thread_attached w p hatt]
    simp only [var_GetInteger, var_Get_got, hs, if_true]
    rw [can_pause_attached _ p hatt1]
    simp only [var_Get_got, hc]
    simp [World.got, World.emit, World.onObject, vlc_object_release, input_Control_SET_STATE]
  · intro hs hc
    have hpause : libvlc_media_instance_pause w =
        vlc_object_release
          (libvlc_media_instance_stop (vlc_object_release ((w.got p).got p) p)) p := by
      unfold libvlc_media_instance_pause
      rw [libvlc_get_input_thread_attached w p hatt]
      simp only [var_GetInteger, var_Get_got, hs, if_true]
      rw [can_pause_attached _ p hatt1]
      simp only [var_Get_got, hc]
    obtain ⟨ht, hm, _, _⟩ := stop_spec _ p (attached_after_lookup w p hatt)
    obtain ⟨ht0, hm0, _, _⟩ := stop_spec w p hatt
    have hmi : (vlc_object_release ((w.got p).got p) p).mi = w.mi := rfl
    have htr : (vlc_object_release ((w.got p).got p) p).trace = w.trace ++
        [Action.vlc_object_get p, Action.vlc_object_get p, Action.vlc_object_release p] := by
      simp [World.got, World.emit, World.onObject, vlc_object_release]
    rw [hmi] at ht hm
    rw [htr] at ht
    have htrace : (libvlc_media_instance_pause w).trace = w.trace ++
        ([Action.vlc_object_get p, Action.vlc_object_get p, Action.vlc_object_release p] ++
          stop_calls w.mi.b_own_its_input_thread p ++ [Action.vlc_object_release p]) := by
      rw [hpause]
      show (libvlc_media_instance_stop _).trace ++ [Action.vlc_object_release p] = _
      rw [ht]
      simp
    refine ⟨htrace, ht0, ?_, ?_⟩
    · rw [hpause, hm0]
      exact hm
    · rw [htrace, List.drop_left]
      unfold stop_calls detach_calls
      cases w.mi.b_own_its_input_thread <;> simp [Action.isSetState, List.countP_cons]
  · intro hs
    unfold libvlc_media_instance_pause
    rw [libvlc_get_input_thread_attached w p hatt]
    simp only [var_GetInteger, var_Get_got, hs, if_false]
    simp [World.got, World.emit, World.onObject, vlc_object_release, input_Control_SET_STATE]

/-- C7 at the sample session with a Playing, pausable resource. -/
theorem C7_witness :
    attached (sample_world true PLAYING_S true) = some 0 ∧
    (var_Get (sample_world true PLAYING_S true) 0 "state").i_int = PLAYING_S ∧
    (var_Get (sample_world true PLAYING_S true) 0 "can-pause").b_bool = true ∧
    (libvlc_media_instance_pause (sample_world true PLAYING_S true)).trace
      = [Action.vlc_object_get 0, Action.vlc_object_get 0, Action.vlc_object_release 0,
         Action.input_Control_SET_STATE 0 PAUSE_S, Action.vlc_object_release 0] :=
  ⟨rfl, rfl, rfl,
    ((C7_pause_by_state (sample_world true PLAYING_S true) 0 rfl).1 rfl rfl).1⟩

/-! ## The state translator and the queries -/

/-- C8. The state translator is a total function of the integer code: Init
and Opening give Opening, Buffering, Playing, Paused, Ended and Error give
the state of the same name, every code below 0 or above 6 gives Stopped, and
no code from 0 to 6 (the known set) gives Stopped. -/
theorem C8_state_translator (c : Int) :
    vlc_to_libvlc_state INIT_S = libvlc_Opening ∧
    vlc_to_libvlc_state OPENING_S = libvlc_Opening ∧
    vlc_to_libvlc_state BUFFERING_S = libvlc_Buffering ∧
    vlc_to_libvlc_state PLAYING_S = libvlc_Playing ∧
    vlc_to_libvlc_state PAUSE_S = libvlc_Paused ∧
    vlc_to_libvlc_state END_S = libvlc_Ended ∧
    vlc_to_libvlc_state ERROR_S = libvlc_Error ∧
    (c < 0 ∨ c > 6 → vlc_to_libvlc_state c = libvlc_Stopped) ∧
    (0 ≤ c → c ≤ 6 →
      c ∈ [INIT_S, OPENING_S, BUFFERING_S, PLAYING_S, PAUSE_S, END_S, ERROR_S] ∧
      vlc_to_libvlc_state c ≠ libvlc_Stopped) := by
  refine ⟨rfl, rfl, rfl, rfl, rfl, rfl, rfl, ?_, ?_⟩
  · intro h
    unfold vlc_to_libvlc_state
    rw [if_pos h]
  · intro h0 h6
    have hc : c = 0 ∨ c = 1 ∨ c = 2 ∨ c = 3 ∨ c = 4 ∨ c = 5 ∨ c = 6 := by omega
    rcases hc with h | h | h | h | h | h | h <;> subst h <;> decide

/-- C8 at the codes -1, 7 and 2. -/
theorem C8_witness :
    vlc_to_libvlc_state (-1) = libvlc_Stopped ∧ vlc_to_libvlc_state 7 = libvlc_Stopped ∧
    vlc_to_libvlc_state 2 ≠ libvlc_Stopped :=
  ⟨(C8_state_translator (-1)).2.2.2.2.2.2.2.1 (Or.inl (by decide)),
    (C8_state_translator 7).2.2.2.2.2.2.2.1 (Or.inr (by decide)),
    ((C8_state_translator 2).2.2.2.2.2.2.2.2 (by decide) (by decide)).2⟩

/-- C9. With no resource attached (no stored id, or a stored id that resolves
to no registered object) the state query returns Stopped and the seekable and
can-pause queries return false, and each leaves the world as it was except
that no exception is raised any more: session, engine objects and trace are
unchanged and no error is reported.  With a resource attached the state query
returns the state translator applied to the engine's current state code. -/
theorem C9_queries_default_when_absent (w : World) :
    (attached w = none →
      libvlc_media_instance_get_state w = (libvlc_Stopped, { w with p_e := none }) ∧
      libvlc_media_instance_is_seekable w = (false, { w with p_e := none }) ∧
      libvlc_media_instance_can_pause w = (false, { w with p_e := none })) ∧
    (∀ p, attached w = some p →
      (libvlc_media_instance_get_state w).1
        = vlc_to_libvlc_state (var_Get w p "state").i_int) := by
  constructor
  · intro h
    unfold libvlc_media_instance_get_state libvlc_media_instance_is_seekable
      libvlc_media_instance_can_pause
    rw [libvlc_get_input_thread_not_attached w h]
    simp [libvlc_exception_raised, libvlc_exception_clear]
  · intro p h
    unfold libvlc_media_instance_get_state
    rw [libvlc_get_input_thread_attached w p h]
    simp only [var_Get_got]

/-- C9 at the freshly constructed sample session. -/
theorem C9_witness :
    attached sample_idle_world = none ∧
    (libvlc_media_instance_get_state sample_idle_world).1 = libvlc_Stopped ∧
    (libvlc_media_instance_get_state sample_idle_world).2.p_e = none :=
  ⟨rfl,
    congrArg Prod.fst ((C9_queries_default_when_absent sample_idle_world).1 rfl).1,
    congrArg (fun r => r.2.p_e) ((C9_queries_default_when_absent sample_idle_world).1 rfl).1⟩

/-! ## The rate round trip -/

theorem float_to_int_floor (q : Rat) (h0 : 0 ≤ q) (h1 : q < 2 ^ 31) :
    float_to_int q = some ⌊q⌋ := by
  have hnum : 0 ≤ q.num := Rat.num_nonneg.2 h0
  have hden : (0 : Int) ≤ (q.den : Int) := Int.natCast_nonneg _
  have ht : Int.tdiv q.num q.den = ⌊q⌋ := by
    rw [Int.tdiv_eq_ediv hnum hden, Rat.floor_def]
  have hlo : (0 : Int) ≤ ⌊q⌋ := Int.floor_nonneg.2 h0
  have hhi : ⌊q⌋ < (2 : Int) ^ 31 := by
    apply Int.floor_lt.2
    push_cast
    exact h1
  unfold float_to_int
  simp only [ht]
  rw [if_pos ⟨by omega, hhi⟩]

theorem round_half_even_intCast (z : Int) : round_half_even (z : Rat) = z := by
  unfold round_half_even
  simp

theorem ilog2_intCast_le (n : Int) (h1 : 1 ≤ n) (h2 : n < 2 ^ 24) :
    ilog2 |(n : Rat)| ≤ 23 := by
  have habs : |(n : Rat)| = (n : Rat) := abs_of_nonneg (by exact_mod_cast (by omega : 0 ≤ n))
  have hnat : n.natAbs < 2 ^ 24 := by omega
  have hne : n.natAbs ≠ 0 := by omega
  have hlog : Nat.log2 n.natAbs < 24 := (Nat.log2_lt hne).2 hnat
  rw [habs]
  unfold ilog2
  simp only [Rat.num_intCast, Rat.den_intCast]
  have h0 : Nat.log2 1 < 1 := (Nat.log2_lt (by decide)).2 (by decide)
  split <;> omega

theorem round_scaled (e : Int) (he : e ≤ 23) (n : Int) :
    (round_half_even ((n : Rat) / (2 : Rat) ^ (e - 23)) : Rat) * (2 : Rat) ^ (e - 23)
      = (n : Rat) := by
  obtain ⟨k, hk⟩ : ∃ k : Nat, e - 23 = -(k : Int) := ⟨(23 - e).toNat, by omega⟩
  rw [hk]
  have hdiv : (n : Rat) / (2 : Rat) ^ (-(k : Int)) = ((n * 2 ^ k : Int) : Rat) := by
    rw [zpow_neg, zpow_natCast]
    push_cast
    field_simp
  rw [hdiv, round_half_even_intCast, zpow_neg, zpow_natCast]
  push_cast
  field_simp

theorem round_binary32_intCast (n : Int) (h1 : 1 ≤ n) (h2 : n < 2 ^ 24) :
    round_binary32 (n : Rat) = (n : Rat) := by
  have hne : ¬ ((n : Rat) = 0) := by
    have : (n : Rat) ≠ 0 := by exact_mod_cast (by omega : n ≠ 0)
    exact this
  unfold round_binary32
  rw [if_neg hne]
  exact round_scaled _ (max_le (ilog2_intCast_le n h1 h2) (by norm_num)) n

theorem var_Get_set_rate (w : World) (p : Nat) (val : vlc_value_t)
    (ho : (w.objects p).isSome = true) :
    var_Get (vlc_object_release (var_Set (w.got p) p "rate" val) p) p "rate" = val := by
  cases hobj : w.objects p with
  | none => simp [hobj] at ho
  | some o =>
    simp [var_Get, vlc_object_release, var_Set, World.got, World.emit, World.onObject, hobj]

theorem attached_set_rate (w : World) (p : Nat) (val : vlc_value_t)
    (hatt : attached w = some p) :
    attached (vlc_object_release (var_Set (w.got p) p "rate" val) p) = some p := by
  rw [(attached_release _ 0 p).1]
  have h1 : attached (var_Set (w.got p) p "rate" val) = attached (w.got p) :=
    attached_onObject (w.got p) p _
  rw [h1, (attached_release _ 0 p).2.1]
  exact hatt

theorem get_rate_attached (w : World) (p : Nat) (hatt : attached w = some p) :
    (libvlc_media_instance_get_rate w).1 =
      float_div 1000 (int_to_float (var_Get w p "rate").i_int) := by
  unfold libvlc_media_instance_get_rate
  rw [libvlc_get_input_thread_attached w p hatt]
  simp only [var_Get_got]

theorem set_rate_attached (w : World) (p : Nat) (hatt : attached w = some p) (r : Rat)
    (hr : 0 < r) (i : Int) (hi : (float_div 1000 r).bind float_to_int = some i) :
    libvlc_media_instance_set_rate w r =
      some (vlc_object_release (var_Set (w.got p) p "rate" { i_int := i }) p) := by
  unfold libvlc_media_instance_set_rate
  rw [if_neg (not_le.2 hr), hi]
  simp only
  rw [libvlc_get_input_thread_attached w p hatt]

theorem rate_round_trip_attached (w : World) (p : Nat) (hatt : attached w = some p) (r : Rat)
    (hr : 0 < r) (s : Int) (hs : (float_div 1000 r).bind float_to_int = some s) :
    ∃ v : World, libvlc_media_instance_set_rate w r = some v ∧
      (var_Get v p "rate").i_int = s ∧
      rate_round_trip w r = some (float_div 1000 (int_to_float s)) := by
  obtain ⟨_, _, ho⟩ := (attached_some_iff w p).1 hatt
  have hset := set_rate_attached w p hatt r hr s hs
  have hget : (var_Get (vlc_object_release
      (var_Set (w.got p) p "rate" { i_int := s }) p) p "rate").i_int = s := by
    rw [var_Get_set_rate _ p _ ho]
  refine ⟨_, hset, hget, ?_⟩
  unfold rate_round_trip
  rw [hset]
  simp only [Option.map_some']
  rw [get_rate_attached _ p (attached_set_rate w p _ hatt), hget]

theorem float_div_exact (a b q : Rat) (hb : b ≠ 0) (hq : a / b = q)
    (hrep : round_binary32 q = q) (hlt : |q| < 2 ^ 128) :
    float_div a b = some q := by
  unfold float_div
  rw [if_neg hb]
  simp only [hq, hrep]
  rw [if_neg (not_le.2 hlt)]

theorem wrap_int64_id (x : Int) (h0 : -(2 : Int) ^ 63 ≤ x) (h1 : x < (2 : Int) ^ 63) :
    wrap_int64 x = x := by
  unfold wrap_int64
  norm_num at h0 h1 ⊢
  omega

theorem round_div (raw : Int) (h0 : 0 ≤ raw) (h1 : raw ≤ 2 ^ 63 - 501) :
    Int.tdiv (wrap_int64 (raw + 500)) 1000 = (raw + 500) / 1000 := by
  have hw : wrap_int64 (raw + 500) = raw + 500 := by
    apply wrap_int64_id
    · norm_num
      omega
    · norm_num at h1 ⊢
      omega
  rw [hw, Int.tdiv_eq_ediv (by omega) (by norm_num)]

theorem get_time_attached (w : World) (p : Nat) (hatt : attached w = some p) :
    (libvlc_media_instance_get_time w).1
      = Int.tdiv (wrap_int64 ((var_Get w p "time").i_time + 500)) 1000 ∧
    (libvlc_media_instance_get_length w).1
      = Int.tdiv (wrap_int64 ((var_Get w p "length").i_time + 500)) 1000 := by
  unfold libvlc_media_instance_get_time libvlc_media_instance_get_length
  rw [libvlc_get_input_thread_attached w p hatt]
  simp only [var_Get_got, and_self]

/-- C11, the claim refuted at the largest raw time: with the engine's time at
`2 ^ 63 - 1` the 64-bit sum `raw + 500` wraps around and `get_time` returns a
negative value, not the nearest multiple. -/
theorem C11_counterexample_raw_max :
    attached (engine_clock (sample_world true PLAYING_S true) 0 (2 ^ 63 - 1) 90000)
      = some 0 ∧
    (var_Get (engine_clock (sample_world true PLAYING_S true) 0 (2 ^ 63 - 1) 90000) 0
      "time").i_time = 2 ^ 63 - 1 ∧
    (libvlc_media_instance_get_time
      (engine_clock (sample_world true PLAYING_S true) 0 (2 ^ 63 - 1) 90000)).1
      = -9223372036854775 ∧
    ¬ (1000 * (-9223372036854775 : Int) - 500 ≤ 2 ^ 63 - 1 ∧
        (2 : Int) ^ 63 - 1 < 1000 * (-9223372036854775) + 500) := by
  refine ⟨rfl, rfl, ?_, ?_⟩
  · rw [(get_time_attached
      (engine_clock (sample_world true PLAYING_S true) 0 (2 ^ 63 - 1) 90000) 0 rfl).1]
    decide
  · decide

theorem round_div_nearest (raw : Int) (h0 : 0 ≤ raw) (h1 : raw ≤ 2 ^ 63 - 501) :
    Int.tdiv (wrap_int64 (raw + 500)) 1000 = (raw + 500) / 1000 ∧
    rounds_to_nearest raw (Int.tdiv (wrap_int64 (raw + 500)) 1000) ∧
    (raw % 1000 < 500 → Int.tdiv (wrap_int64 (raw + 500)) 1000 = raw / 1000) ∧
    (500 ≤ raw % 1000 → Int.tdiv (wrap_int64 (raw + 500)) 1000 = raw / 1000 + 1) := by
  rw [round_div raw h0 h1]
  unfold rounds_to_nearest
  refine ⟨rfl, ⟨?_, ?_⟩, ?_, ?_⟩ <;> omega

/-- C11, as amended.  For every session with an attached resource `p`,
`get_time` and `get_length` return the 64-bit sum `raw + 500` of the raw time,
respectively length, divided by 1000 with the division of C; and for every raw
value with `0 ≤ raw ≤ 2 ^ 63 - 501` (where the sum does not wrap) the result
is `(raw + 500) / 1000`, the round-to-nearest of `raw`: it lies within 500
below and less than 500 above a thousand times the result, it is the
truncation `raw / 1000` when the remainder is below 500 and one more when the
remainder is 500 to 999. -/
theorem C11_round_to_nearest_in_range (w : World) (p : Nat) (hatt : attached w = some p) :
    (libvlc_media_instance_get_time w).1
      = Int.tdiv (wrap_int64 ((var_Get w p "time").i_time + 500)) 1000 ∧
    (libvlc_media_instance_get_length w).1
      = Int.tdiv (wrap_int64 ((var_Get w p "length").i_time + 500)) 1000 ∧
    (0 ≤ (var_Get w p "time").i_time → (var_Get w p "time").i_time ≤ 2 ^ 63 - 501 →
      (libvlc_media_instance_get_time w).1 = ((var_Get w p "time").i_time + 500) / 1000 ∧
      rounds_to_nearest (var_Get w p "time").i_time (libvlc_media_instance_get_time w).1 ∧
      ((var_Get w p "time").i_time % 1000 < 500 →
        (libvlc_media_instance_get_time w).1 = (var_Get w p "time").i_time / 1000) ∧
      (500 ≤ (var_Get w p "time").i_time % 1000 →
        (libvlc_media_instance_get_time w).1 = (var_Get w p "time").i_time / 1000 + 1)) ∧
    (0 ≤ (var_Get w p "length").i_time → (var_Get w p "length").i_time ≤ 2 ^ 63 - 501 →
      (libvlc_media_instance_get_length w).1
        = ((var_Get w p "length").i_time + 500) / 1000 ∧
      rounds_to_nearest (var_Get w p "length").i_time
        (libvlc_media_instance_get_length w).1 ∧
      ((var_Get w p "length").i_time % 1000 < 500 →
        (libvlc_media_instance_get_length w).1 = (var_Get w p "length").i_time / 1000) ∧
      (500 ≤ (var_Get w p "length").i_time % 1000 →
        (libvlc_media_instance_get_length w).1
          = (var_Get w p "length").i_time / 1000 + 1)) := by
  obtain ⟨ht, hl⟩ := get_time_attached w p hatt
  refine ⟨ht, hl, ?_, ?_⟩
  · intro h0 h1
    rw [ht]
    exact round_div_nearest _ h0 h1
  · intro h0 h1
    rw [hl]
    exact round_div_nearest _ h0 h1

/-- C11 as amended, at raw times 1499 and 1999 on the sample session. -/
theorem C11_witness :
    attached (sample_world true PLAYING_S true) = some 0 ∧
    (var_Get (sample_world true PLAYING_S true) 0 "time").i_time = 1499 ∧
    (libvlc_media_instance_get_time (sample_world true PLAYING_S true)).1 = 1 ∧
    (libvlc_media_instance_get_time
      (engine_clock (sample_world true PLAYING_S true) 0 1999 90000)).1 = 2 :=
  ⟨rfl, rfl,
    ((C11_round_to_nearest_in_range (sample_world true PLAYING_S true) 0 rfl).2.2.1
      (by decide) (by decide)).1,
    ((C11_round_to_nearest_in_range
      (engine_clock (sample_world true PLAYING_S true) 0 1999 90000) 0 rfl).2.2.1
      (by decide) (by decide)).1⟩

/-! ## Rejected and unattached calls -/

/-- C12. For every rate `r ≤ 0` and every world, with or without an attached
resource, `set_rate r` raises "Rate value is invalid" and does nothing else:
the trace gets no call (so no property write), the engine objects and with
them the stored rate are the same, and so is the session. -/
theorem C12_set_rate_rejects_nonpositive (w : World) (r : Rat) (hr : r ≤ 0) :
    libvlc_media_instance_set_rate w r
      = some { w with p_e := some "Rate value is invalid" } ∧
    ∀ v, libvlc_media_instance_set_rate w r = some v →
      v.p_e = some "Rate value is invalid" ∧ v.trace = w.trace ∧ v.mi = w.mi ∧
      v.objects = w.objects ∧ ∀ p, var_Get v p "rate" = var_Get w p "rate" := by
  have h : libvlc_media_instance_set_rate w r
      = some { w with p_e := some "Rate value is invalid" } := by
    unfold libvlc_media_instance_set_rate
    rw [if_pos hr]
    rfl
  refine ⟨h, ?_⟩
  intro v hv
  rw [h] at hv
  simp only [Option.some.injEq] at hv
  subst hv
  exact ⟨rfl, rfl, rfl, rfl, fun _ => rfl⟩

/-- C12 at rates 0 and -1, on a session with a resource and on one without. -/
theorem C12_witness :
    (0 : Rat) ≤ 0 ∧ (-1 : Rat) ≤ 0 ∧
    libvlc_media_instance_set_rate (sample_world true PLAYING_S true) 0
      = some { sample_world true PLAYING_S true with p_e := some "Rate value is invalid" } ∧
    libvlc_media_instance_set_rate sample_idle_world (-1)
      = some { sample_idle_world with p_e := some "Rate value is invalid" } :=
  ⟨le_refl 0, by norm_num,
    (C12_set_rate_rejects_nonpositive (sample_world true PLAYING_S true) 0 (le_refl 0)).1,
    (C12_set_rate_rejects_nonpositive sample_idle_world (-1) (by norm_num)).1⟩

/-- C13. On a session with no attached resource, pause returns with the
exception of the failed lookup raised ("Input is NULL" when no id is stored,
"Input does not exist" when the stored id resolves to nothing) and changes
nothing else: no call is issued, and the session fields, the engine objects
and the engine counter are as before. -/
theorem C13_pause_without_resource (w : World) (hno : attached w = none) :
    libvlc_media_instance_pause w = { w with p_e := some (missing_resource w) } ∧
    (libvlc_media_instance_pause w).trace = w.trace ∧
    (libvlc_media_instance_pause w).mi = w.mi := by
  have h : libvlc_media_instance_pause w = { w with p_e := some (missing_resource w) } := by
    unfold libvlc_media_instance_pause
    rw [libvlc_get_input_thread_not_attached w hno]
    rfl
  refine ⟨h, ?_, ?_⟩ <;> rw [h]

/-- C13 at the freshly constructed sample session. -/
theorem C13_witness :
    attached sample_idle_world = none ∧
    libvlc_media_instance_pause sample_idle_world
      = { sample_idle_world with p_e := some "Input is NULL" } :=
  ⟨rfl, (C13_pause_without_resource sample_idle_world rfl).1⟩

/-- C14, the claim refuted on the freshly constructed session: with no
exception raised before the call and no resource attached, each of the three
setters returns with the exception "Input is NULL" raised, so an error is
reported to the caller. -/
theorem C14_counterexample_exception_left :
    attached sample_idle_world = none ∧ sample_idle_world.p_e = none ∧
    (libvlc_media_instance_set_time sample_idle_world 5).p_e = some "Input is NULL" ∧
    (libvlc_media_instance_set_position sample_idle_world (1 / 2)).p_e
      = some "Input is NULL" ∧
    (libvlc_media_instance_set_chapter sample_idle_world 1).p_e = some "Input is NULL" := by
  refine ⟨rfl, rfl, rfl, rfl, rfl⟩

/-- C14, as amended.  On a session with no attached resource the time,
position and chapter setters issue no call (so no property write) and leave
the session, the engine objects and the engine counter unchanged; they return
with the exception of the failed lookup raised, which is what the caller is
left with. -/
theorem C14_setters_without_resource (w : World) (hno : attached w = none)
    (time : Int) (position : Rat) (chapter : Int) :
    libvlc_media_instance_set_time w time = { w with p_e := some (missing_resource w) } ∧
    libvlc_media_instance_set_position w position
      = { w with p_e := some (missing_resource w) } ∧
    libvlc_media_instance_set_chapter w chapter
      = { w with p_e := some (missing_resource w) } := by
  unfold libvlc_media_instance_set_time libvlc_media_instance_set_position
    libvlc_media_instance_set_chapter
  simp only [libvlc_get_input_thread_not_attached w hno]
  exact ⟨rfl, rfl, rfl⟩

/-- C14 as amended, at the freshly constructed sample session. -/
theorem C14_witness :
    attached sample_idle_world = none ∧
    libvlc_media_instance_set_chapter sample_idle_world 3
      = { sample_idle_world with p_e := some "Input is NULL" } :=
  ⟨rfl, (C14_setters_without_resource sample_idle_world rfl 0 0 3).2.2⟩

/-! ## Adoption of an existing input thread -/

theorem new_succeeds (w : World) (inst em : Nat) (he : w.p_e = none) :
    libvlc_media_instance_new w (some inst) (some em) =
      (some { p_md := none, drawable := 0, p_libvlc_instance := inst, i_input_id := -1,
              i_refcount := 1, b_own_its_input_thread := true, p_event_manager := em },
        { w with trace := w.trace ++ register_calls em }) := by
  unfold libvlc_media_instance_new
  simp [libvlc_exception_raised, he, World.emit, register_calls]

theorem new_from_input_thread_succeeds (w : World) (inst p em : Nat)
    (md : libvlc_media_descriptor_t) (he : w.p_e = none) :
    libvlc_media_instance_new_from_input_thread w (some inst) (some p) (some em) (some md) =
      (some { p_md := some md, drawable := 0, p_libvlc_instance := inst,
              i_input_id := (p : Int), i_refcount := 1, b_own_its_input_thread := false,
              p_event_manager := em },
        vlc_object_yield (vlc_object_yield
          { w with trace := w.trace ++ register_calls em } p) p) := by
  unfold libvlc_media_instance_new_from_input_thread
  rw [new_succeeds w inst em he]

theorem release_adopted_object (w : World) (p : Nat) (o : input_thread_t)
    (hid : w.mi.i_input_id = (p : Int)) (hobj : w.objects p = some o)
    (hown : w.mi.b_own_its_input_thread = false) (hrc : w.mi.i_refcount = 1) :
    (libvlc_media_instance_release w).objects p
      = some { o with i_refcount := o.i_refcount - 2 } := by
  have hatt : attached w = some p := by
    apply (attached_some_iff w p).2
    rw [hid]
    exact ⟨by omega, by simp, by rw [hobj]; rfl⟩
  have hne : ¬ w.mi.i_input_id = -1 := by omega
  have hpos : ¬ (wrap_int32 (w.mi.i_refcount - 1) > 0) := by
    rw [hrc]
    decide
  unfold libvlc_media_instance_release
  simp only [hpos, if_false]
  unfold release_input_thread
  have hne2 : ¬ ({ w with mi :=
      { w.mi with i_refcount := wrap_int32 (w.mi.i_refcount - 1) } }.emit
      Action.vlc_mutex_destroy).mi.i_input_id = -1 := hne
  have hatt2 : attached ({ w with mi :=
      { w.mi with i_refcount := wrap_int32 (w.mi.i_refcount - 1) } }.emit
      Action.vlc_mutex_destroy) = some p := hatt
  rw [if_neg hne2, vlc_object_get_attached _ p hatt2]
  simp [hown, hobj, World.got, World.emit, World.onObject, vlc_object_release,
    libvlc_event_manager_release, libvlc_media_descriptor_release]
  omega

/-- C15. Constructing a session from the registered input thread `p` (no
exception pending, event manager and descriptor obtained) gives a session with
reference count 1 that stores the id of `p` and does not own it, and issues,
after the five event registrations, exactly two retains on `p`, whose
reference count goes up by two.  The release of that session then brings its
count to zero and issues the lookup, three releases (one for the lookup, two
for the adoption retains), the release of the event bus and of the
descriptor, and the free: no stop, no destroy.  Afterwards `p` is still
registered and is exactly the object it was before the construction, its
reference count included. -/
theorem C15_adopt_then_release_balances (w : World) (inst p em : Nat)
    (md : libvlc_media_descriptor_t) (o : input_thread_t)
    (hobj : w.objects p = some o) (he : w.p_e = none) :
    ∃ (p_mi : libvlc_media_instance_t) (w1 : World),
      libvlc_media_instance_new_from_input_thread w (some inst) (some p) (some em) (some md)
        = (some p_mi, w1) ∧
      p_mi.i_input_id = (p : Int) ∧ p_mi.b_own_its_input_thread = false ∧
      p_mi.i_refcount = 1 ∧
      w1.trace = w.trace ++ register_calls em ++
        [Action.vlc_object_yield p, Action.vlc_object_yield p] ∧
      w1.objects p = some { o with i_refcount := o.i_refcount + 2 } ∧
      (libvlc_media_instance_release { w1 with mi := p_mi }).mi.i_refcount = 0 ∧
      (libvlc_media_instance_release { w1 with mi := p_mi }).trace = w1.trace ++
        [Action.vlc_mutex_destroy, Action.vlc_object_get p, Action.vlc_object_release p,
         Action.vlc_object_release p, Action.vlc_object_release p,
         Action.libvlc_event_manager_release em,
         Action.libvlc_media_descriptor_release (some md), Action.free] ∧
      (libvlc_media_instance_release { w1 with mi := p_mi }).objects p = some o := by
  have hobj1 : (vlc_object_yield (vlc_object_yield
      { w with trace := w.trace ++ register_calls em } p) p).objects p
        = some { o with i_refcount := o.i_refcount + 2 } := by
    simp [vlc_object_yield, World.emit, World.onObject, hobj]
    omega
  refine ⟨_, _, new_from_input_thread_succeeds w inst p em md he, rfl, rfl, rfl, ?_, hobj1,
    ?_, ?_, ?_⟩
  · simp [vlc_object_yield, World.emit, World.onObject]
  · exact (release_last _ rfl).1
  · rw [(release_last _ rfl).2]
    have hatt : attached ({ vlc_object_yield (vlc_object_yield
        { w with trace := w.trace ++ register_calls em } p) p with
        mi := { p_md := some md, drawable := 0, p_libvlc_instance := inst,
                i_input_id := (p : Int), i_refcount := 1, b_own_its_input_thread := false,
                p_event_manager := em } } : World) = some p := by
      apply (attached_some_iff _ p).2
      refine ⟨by simp, by simp, ?_⟩
      show ((vlc_object_yield (vlc_object_yield
        { w with trace := w.trace ++ register_calls em } p) p).objects p).isSome = true
      rw [hobj1]
      rfl
    unfold teardown_calls
    rw [hatt]
    simp [detach_calls]
  · have key : ∀ (mi : libvlc_media_instance_t) (v : World) (o1 : input_thread_t),
        mi.i_input_id = (p : Int) → mi.b_own_its_input_thread = false →
        mi.i_refcount = 1 → v.objects p = some o1 →
        (libvlc_media_instance_release { v with mi := mi }).objects p
          = some { o1 with i_refcount := o1.i_refcount - 2 } :=
      fun mi v o1 h1 h2 h3 h4 => release_adopted_object { v with mi := mi } p o1 h1 h4 h2 h3
    rw [key _ _ _ rfl rfl rfl hobj1]
    cases o
    simp

/-- C15 at the adoption of object 0 of the sample world (reference count 1)
by a new session: two retains, and after the release the count is 1 again. -/
theorem C15_witness :
    (sample_world true PLAYING_S true).objects 0 = some (sample_input PLAYING_S true) ∧
    (sample_world true PLAYING_S true).p_e = none ∧
    ∃ (p_mi : libvlc_media_instance_t) (w1 : World),
      libvlc_media_instance_new_from_input_thread (sample_world true PLAYING_S true)
        (some 2) (some 0) (some 1) (some sample_md) = (some p_mi, w1) ∧
      p_mi.i_input_id = ((0 : Nat) : Int) ∧ p_mi.b_own_its_input_thread = false ∧
      p_mi.i_refcount = 1 ∧
      w1.trace = (sample_world true PLAYING_S true).trace ++ register_calls 1 ++
        [Action.vlc_object_yield 0, Action.vlc_object_yield 0] ∧
      w1.objects 0 = some { sample_input PLAYING_S true with
        i_refcount := (sample_input PLAYING_S true).i_refcount + 2 } ∧
      (libvlc_media_instance_release { w1 with mi := p_mi }).mi.i_refcount = 0 ∧
      (libvlc_media_instance_release { w1 with mi := p_mi }).trace = w1.trace ++
        [Action.vlc_mutex_destroy, Action.vlc_object_get 0, Action.vlc_object_release 0,
         Action.vlc_object_release 0, Action.vlc_object_release 0,
         Action.libvlc_event_manager_release 1,
         Action.libvlc_media_descriptor_release (some sample_md), Action.free] ∧
      (libvlc_media_instance_release { w1 with mi := p_mi }).objects 0
        = some (sample_input PLAYING_S true) :=
  ⟨rfl, rfl,
    C15_adopt_then_release_balances (sample_world true PLAYING_S true) 2 0 1 sample_md
      (sample_input PLAYING_S true) rfl rfl⟩

end Vlc
